import Mathlib

/-!
# Dashboard refresher of `src/web/app.js`

A shallow embedding of the browser script: the two fetch handlers `fetchStats` and
`fetchAlerts`, their HTML templates, and `loadDashboard`.

Modelling conventions.

* A parsed response body is a `JVal`, a JavaScript value as produced by `JSON.parse`
  (plus `undefined` for the result of reading a missing property).  Numbers are the
  integer-valued ones: `num n` is the number a JSON numeral of value `n` parses to.  Its
  text is the decimal numeral when `n` is a safe integer (magnitude below `2^53`) and is
  left to the runtime otherwise (`Env.numberToString`).  An object is the list of its own
  properties in enumeration order (`Object.entries` order), with distinct keys.
* The DOM is the record `Dom` of what the script writes in its five elements.  `innerHTML` and
  `textContent` are modelled as the string last assigned.
* Runtime library functions whose result is locale or parser defined (date formatting,
  string to number conversion, the text of a number outside the safe integers) are fields
  of `Env`, and so is the text that stands for a lone surrogate code unit, which a Lean
  string cannot hold.
* A `try` block is a function `Dom → Dom × Option JsError`: the DOM when the block ends or
  throws, and the thrown error if any.  Writes made before a throw stay in the DOM.
* The five elements exist in the page, so `document.getElementById` and the assignments to
  `textContent`, `innerHTML` and `className` of a string do not throw.
* Each handler writes the DOM only after its last `await`, in one synchronous run; one
  cycle of `loadDashboard` is therefore the two handlers applied in one of two orders.
-/

namespace Dashboard

set_option autoImplicit false

/-- JavaScript values reachable from a `JSON.parse` result. -/
inductive JVal where
  | undefined
  | null
  | bool (b : Bool)
  | num (n : Int)
  | str (s : String)
  | arr (xs : List JVal)
  | obj (kvs : List (String × JVal))

/-- Errors that can be thrown inside the two `try` blocks. -/
inductive JsError where
  | typeError
  | fetchRejected
  | statusNotOk
  | jsonRejected
deriving DecidableEq, Repr

deriving instance DecidableEq for Except

/-- Outcome of `fetch(url)` followed by `response.json()`. -/
inductive Response where
  | rejected
  | notOk
  | invalidJson
  | json (data : JVal)

/-- The DOM elements the script writes to: the text of `total-alerts` and `last-alert`, the
HTML of `class-stats` and `alerts-container`, and the text and CSS class of `status`. -/
structure Dom where
  totalAlerts : String
  lastAlert : String
  classStats : String
  alertsContainer : String
  statusText : String
  statusClass : String
deriving DecidableEq, Repr

/-- Runtime functions that the script calls and that are not defined by the source. -/
structure Env where
  /-- Result of `new Date(v).toLocaleTimeString('es-ES')`. -/
  toLocaleTimeString : JVal → String
  /-- Result of `new Date(v).toLocaleString('es-ES')`. -/
  toLocaleString : JVal → String
  /-- Whether the number denoted by a string (`StringToNumber`) is greater than zero. -/
  stringIsPositive : String → Bool
  /-- Text (`Number::toString`) of the number that an integer numeral of magnitude `2^53` or
  more parses to: rounded digits, and exponent form from `10^21`. -/
  numberToString : Int → String
  /-- Text standing for the one-unit string made of a lone surrogate code unit. -/
  surrogateText : Nat → String

/-- JavaScript `ToBoolean`. -/
def truthy : JVal → Bool
  | .undefined => false
  | .null => false
  | .bool b => b
  | .num n => decide (n ≠ 0)
  | .str s => decide (s ≠ "")
  | .arr _ => true
  | .obj _ => true

/-- The expression `a || b`. -/
def orElse (a b : JVal) : JVal :=
  if truthy a then a else b

/-- Own property `k` of a parsed object, `undefined` when missing. -/
def ownProp (k : String) (kvs : List (String × JVal)) : JVal :=
  match kvs.lookup k with
  | some v => v
  | none => .undefined

/-- Whether a parsed object has own property `k`. -/
def hasOwn (k : String) (kvs : List (String × JVal)) : Bool :=
  (kvs.lookup k).isSome

/-- The property read `v.k` for the field names used by the script (`total_alerts`,
`last_alert`, `class_counts`, `alerts`, `timestamp`, `detections`, `count`, `class_name`),
none of which is defined on a built-in prototype: reading from `null` throws, reading from
an object gives the own property, reading from any other value gives `undefined`. -/
def getField (v : JVal) (k : String) : Except JsError JVal :=
  match v with
  | .undefined => .error .typeError
  | .null => .error .typeError
  | .obj kvs => .ok (ownProp k kvs)
  | _ => .ok .undefined

/-- Text of a number (`Number::toString`): the decimal numeral of a safe integer, the
runtime's text otherwise. -/
def numberText (env : Env) (n : Int) : String :=
  if n.natAbs < 9007199254740992 then toString n else env.numberToString n

mutual
/-- JavaScript `ToString`, as applied by a template literal and by property keys.  A parsed
object prints as `[object Object]` unless it has an own `toString` property, which is never
callable and makes the conversion throw. -/
def toStringJS (env : Env) : JVal → Except JsError String
  | .undefined => .ok "undefined"
  | .null => .ok "null"
  | .bool b => .ok (if b then "true" else "false")
  | .num n => .ok (numberText env n)
  | .str s => .ok s
  | .arr xs => joinJS env xs
  | .obj kvs => if hasOwn "toString" kvs then .error .typeError else .ok "[object Object]"
termination_by structural v => v
/-- The method `Array.prototype.join` with the default separator. -/
def joinJS (env : Env) : List JVal → Except JsError String
  | [] => .ok ""
  | x :: t =>
    match (match x with
      | .undefined => (Except.ok "" : Except JsError String)
      | .null => Except.ok ""
      | v => toStringJS env v), joinJS env t with
    | .ok a, .ok b => .ok (if t.isEmpty then a else a ++ "," ++ b)
    | .error e, _ => .error e
    | _, .error e => .error e
termination_by structural xs => xs
end

/-- Number of UTF-16 code units of a string. -/
def utf16Length (s : String) : Nat :=
  s.data.foldl (fun n c => n + (if c.toNat < 65536 then 1 else 2)) 0

/-- The property read `v.length`. -/
def lengthOf : JVal → Except JsError JVal
  | .undefined => .error .typeError
  | .null => .error .typeError
  | .arr xs => .ok (.num xs.length)
  | .str s => .ok (.num (utf16Length s))
  | .obj kvs => .ok (ownProp "length" kvs)
  | _ => .ok .undefined

/-- The comparison `v > 0`. -/
def gtZero (env : Env) : JVal → Except JsError Bool
  | .undefined => .ok false
  | .null => .ok false
  | .bool b => .ok b
  | .num n => .ok (decide (0 < n))
  | .str s => .ok (env.stringIsPositive s)
  | .arr xs =>
    match joinJS env xs with
    | .error e => .error e
    | .ok s => .ok (env.stringIsPositive s)
  | .obj kvs => if hasOwn "toString" kvs then .error .typeError else .ok false

/-- Pairs an array with its indices, as `Object.entries` does. -/
def indexedFrom (i : Nat) : List JVal → List (String × JVal)
  | [] => []
  | x :: t => (toString i, x) :: indexedFrom (i + 1) t

/-- The one-unit strings of the UTF-16 code units of a string: a character of the Basic
Multilingual Plane is one unit, any other character is a high and a low surrogate. -/
def codeUnits (env : Env) : List Char → List JVal
  | [] => []
  | c :: t =>
    if c.toNat < 65536 then JVal.str (String.singleton c) :: codeUnits env t
    else
      JVal.str (env.surrogateText (55296 + (c.toNat - 65536) / 1024)) ::
      JVal.str (env.surrogateText (56320 + (c.toNat - 65536) % 1024)) :: codeUnits env t

/-- The own enumerable string-keyed properties, `Object.entries(v)`, of a value that is not
`null` or `undefined`.  A string is enumerated per UTF-16 code unit. -/
def objectEntries (env : Env) : JVal → List (String × JVal)
  | .obj kvs => kvs
  | .arr xs => indexedFrom 0 xs
  | .str s => indexedFrom 0 (codeUnits env s.data)
  | _ => []

/-- The value `new Date(v).toLocale…String('es-ES')`: constructing the date converts an
array or object to a primitive, which throws exactly when `ToString` does. -/
def dateText (env : Env) (fmt : JVal → String) (v : JVal) : Except JsError String :=
  match toStringJS env v with
  | .error e => .error e
  | .ok _ => .ok (fmt v)

/-! ## fetchStats -/

/-- Text assigned to `total-alerts`: `data.total_alerts || 0`. -/
def counterText (env : Env) (data : JVal) : Except JsError String :=
  match getField data "total_alerts" with
  | .error e => .error e
  | .ok v => toStringJS env (orElse v (.num 0))

/-- Text assigned to `last-alert`. -/
def labelText (env : Env) (data : JVal) : Except JsError String :=
  match getField data "last_alert" with
  | .error e => .error e
  | .ok v => if truthy v then dateText env env.toLocaleTimeString v else .ok "N/A"

/-- One tile of the class statistics panel. -/
def statTile (count className : String) : String :=
  "\n                    <div class=\"stat-item\">\n                        <div class=\"stat-value\">"
    ++ count ++ "</div>\n                        <div class=\"stat-label\">"
    ++ className ++ "</div>\n                    </div>\n                "

/-- The loop `for (const [className, count] of Object.entries(...)) html += ...`. -/
def tilesLoop (env : Env) : List (String × JVal) → String → Except JsError String
  | [], html => .ok html
  | (className, count) :: rest, html =>
    match toStringJS env count with
    | .error e => .error e
    | .ok c => tilesLoop env rest (html ++ statTile c className)

/-- Placeholder of the class statistics panel. -/
def noDataHtml : String := "<div class=\"loading\">No hay datos</div>"

/-- HTML assigned to `class-stats`. -/
def panelHtml (env : Env) (data : JVal) : Except JsError String :=
  match getField data "class_counts" with
  | .error e => .error e
  | .ok cc =>
    if (objectEntries env (orElse cc (.obj []))).length > 0 then
      match tilesLoop env (objectEntries env cc) "<div class=\"stats-grid\">" with
      | .error e => .error e
      | .ok html => .ok (html ++ "</div>")
    else .ok noDataHtml

/-- The `try` block of `fetchStats`. -/
def fetchStatsTry (env : Env) (r : Response) (dom : Dom) : Dom × Option JsError :=
  match r with
  | .rejected => (dom, some .fetchRejected)
  | .notOk => (dom, some .statusNotOk)
  | .invalidJson => (dom, some .jsonRejected)
  | .json data =>
    match counterText env data with
    | .error e => (dom, some e)
    | .ok c =>
      match labelText env data with
      | .error e => ({ dom with totalAlerts := c }, some e)
      | .ok l =>
        match panelHtml env data with
        | .error e => ({ dom with totalAlerts := c, lastAlert := l }, some e)
        | .ok h => ({ dom with totalAlerts := c, lastAlert := l, classStats := h }, none)

/-- The `catch` block of `fetchStats`. -/
def fetchStatsCatch (_ : JsError) (dom : Dom) : Dom × Option JsError :=
  ({ dom with statusText := "Desconectado", statusClass := "status inactive" }, none)

/-- The statement `try { body } catch (error) { handler }`. -/
def tryCatch (body : Dom → Dom × Option JsError)
    (handler : JsError → Dom → Dom × Option JsError) (dom : Dom) : Dom × Option JsError :=
  match body dom with
  | (d, none) => (d, none)
  | (d, some e) => handler e d

/-- The function `fetchStats`, from the settled response to the DOM it leaves and the error
it rejects with, if any. -/
def fetchStats (env : Env) (r : Response) : Dom → Dom × Option JsError :=
  tryCatch (fetchStatsTry env r) fetchStatsCatch

/-! ## fetchAlerts -/

/-- Value stored in `classGroups`: every value written there is the result of `… + 1`, a
number or, when the left operand was not a number, a string. -/
inductive GVal where
  | num (n : Nat)
  | str (s : String)
deriving DecidableEq, Repr

/-- The object `classGroups`: its own properties in enumeration order. -/
abbrev Groups := List (String × GVal)

/-- Value of a decimal numeral, most significant digit first, on top of `acc`. -/
def digitsValue (acc : Nat) : List Char → Option Nat
  | [] => some acc
  | c :: t => if c.isDigit then digitsValue (acc * 10 + (c.toNat - 48)) t else none

/-- The array index a property key denotes, if any: the key is the canonical numeral of an
integer below `2^32 - 1`, that is, printing its value gives the key back.  Such keys are
enumerated first, in ascending order. -/
def arrayIndex (k : String) : Option Nat :=
  match digitsValue 0 k.data with
  | some n => if n < 4294967295 ∧ toString n = k then some n else none
  | none => none

/-- Source text of a built-in function (the form V8 prints; the standard fixes it up to
white space). -/
def nativeText (name : String) : String :=
  "function " ++ name ++ "() \x7b [native code] \x7d"

/-- For a key that `classGroups` inherits from `Object.prototype`, the string the inherited
value converts to when it is the left operand of `+`. -/
def inheritedText (k : String) : Option String :=
  if k = "__proto__" then some "[object Object]"
  else if k = "constructor" then some (nativeText "Object")
  else if k ∈ ["__defineGetter__", "__defineSetter__", "__lookupGetter__", "__lookupSetter__",
      "hasOwnProperty", "isPrototypeOf", "propertyIsEnumerable", "toLocaleString", "toString",
      "valueOf"] then some (nativeText k)
  else none

/-- The value `(classGroups[k] || 0) + 1`. -/
def bumped (g : Groups) (k : String) : GVal :=
  match g.lookup k with
  | some (.num n) => .num (n + 1)
  | some (.str s) => if s = "" then .num 1 else .str (s ++ "1")
  | none =>
    match inheritedText k with
    | some t => .str (t ++ "1")
    | none => .num 1

/-- Replaces the value of the own property `k`. -/
def updateKey (k : String) (v : GVal) : Groups → Groups
  | [] => []
  | (k', v') :: t => if k' = k then (k, v) :: t else (k', v') :: updateKey k v t

/-- Creates the own property `k`: array indices go first in ascending order, other keys
last in creation order. -/
def insertKey (k : String) (v : GVal) : Groups → Groups
  | [] => [(k, v)]
  | (k', v') :: t =>
    match arrayIndex k, arrayIndex k' with
    | some i, some j => if i < j then (k, v) :: (k', v') :: t else (k', v') :: insertKey k v t
    | some _, none => (k, v) :: (k', v') :: t
    | none, _ => (k', v') :: insertKey k v t

/-- The assignment `classGroups[k] = v` of a number or string `v`.  The key `__proto__`
reaches the inherited setter, which ignores a value that is not an object. -/
def setKey (k : String) (v : GVal) (g : Groups) : Groups :=
  if k = "__proto__" then g
  else if (g.lookup k).isSome then updateKey k v g
  else insertKey k v g

/-- The property key `det.class_name || 'unknown'` of one detection. -/
def detectionKey (env : Env) (det : JVal) : Except JsError String :=
  match getField det "class_name" with
  | .error e => .error e
  | .ok v => toStringJS env (orElse v (.str "unknown"))

/-- The loop `detections.forEach(det => …)` that fills `classGroups`. -/
def groupDetections (env : Env) : List JVal → Groups → Except JsError Groups
  | [], g => .ok g
  | det :: rest, g =>
    match detectionKey env det with
    | .error e => .error e
    | .ok k => groupDetections env rest (setKey k (bumped g k) g)

/-- Text of a `classGroups` value in a template literal. -/
def gvalText : GVal → String
  | .num n => toString n
  | .str s => s

/-- One detection badge. -/
def badge (kv : String × GVal) : String :=
  "<span class=\"detection-badge\">" ++ kv.1 ++ ": " ++ gvalText kv.2 ++ "</span>"

/-- The expression `Object.entries(classGroups).map(…).join('')`. -/
def badges (g : Groups) : String :=
  String.join (g.map badge)

/-- The array `alert.detections || []`, on which `forEach` is then called: a value that is
not an array has no such method. -/
def detectionsOf (alert : JVal) : Except JsError (List JVal) :=
  match getField alert "detections" with
  | .error e => .error e
  | .ok v =>
    match orElse v (.arr []) with
    | .arr xs => .ok xs
    | _ => .error .typeError

/-- Header text `alert.count || 'N/A'`. -/
def countText (env : Env) (alert : JVal) : Except JsError String :=
  match getField alert "count" with
  | .error e => .error e
  | .ok v => toStringJS env (orElse v (.str "N/A"))

/-- One alert block of the alerts list. -/
def alertBlock (count date badgesHtml : String) : String :=
  "\n                    <div class=\"alert-item\">\n                        <div class=\"alert-header\">\n                            <strong>Alerta #"
    ++ count ++ "</strong>\n                            <span class=\"alert-time\">"
    ++ date ++ "</span>\n                        </div>\n                        <div class=\"alert-detections\">\n                            "
    ++ badgesHtml ++ "\n                        </div>\n                    </div>\n                "

/-- Body of the callback of `data.alerts.reverse().forEach(alert => …)`: the block appended
to `html` for one alert. -/
def renderAlert (env : Env) (alert : JVal) : Except JsError String :=
  match getField alert "timestamp" with
  | .error e => .error e
  | .ok ts =>
    match dateText env env.toLocaleString ts with
    | .error e => .error e
    | .ok date =>
      match detectionsOf alert with
      | .error e => .error e
      | .ok dets =>
        match groupDetections env dets [] with
        | .error e => .error e
        | .ok g =>
          match countText env alert with
          | .error e => .error e
          | .ok c => .ok (alertBlock c date (badges g))

/-- The loop `forEach(alert => { … html += … })`. -/
def alertsLoop (env : Env) : List JVal → String → Except JsError String
  | [], html => .ok html
  | alert :: rest, html =>
    match renderAlert env alert with
    | .error e => .error e
    | .ok block => alertsLoop env rest (html ++ block)

/-- Placeholder of the alerts list. -/
def noAlertsHtml : String := "<div class=\"loading\">No hay alertas registradas</div>"

/-- The condition `data.alerts && data.alerts.length > 0`. -/
def hasAlerts (env : Env) (alerts : JVal) : Except JsError Bool :=
  if truthy alerts then
    match lengthOf alerts with
    | .error e => .error e
    | .ok n => gtZero env n
  else .ok false

/-- The call `data.alerts.reverse()`: only an array has the method. -/
def reverseJS : JVal → Except JsError (List JVal)
  | .arr xs => .ok xs.reverse
  | _ => .error .typeError

/-- HTML assigned to `alerts-container` in the `try` block. -/
def alertsHtml (env : Env) (data : JVal) : Except JsError String :=
  match getField data "alerts" with
  | .error e => .error e
  | .ok alerts =>
    match hasAlerts env alerts with
    | .error e => .error e
    | .ok true =>
      match reverseJS alerts with
      | .error e => .error e
      | .ok xs => alertsLoop env xs ""
    | .ok false => .ok noAlertsHtml

/-- The `try` block of `fetchAlerts`. -/
def fetchAlertsTry (env : Env) (r : Response) (dom : Dom) : Dom × Option JsError :=
  match r with
  | .rejected => (dom, some .fetchRejected)
  | .notOk => (dom, some .statusNotOk)
  | .invalidJson => (dom, some .jsonRejected)
  | .json data =>
    match alertsHtml env data with
    | .error e => (dom, some e)
    | .ok html =>
      ({ dom with alertsContainer := html, statusText := "Conectado",
                  statusClass := "status active" }, none)

/-- Error panel written by the `catch` block of `fetchAlerts`. -/
def errorHtml : String :=
  "\n            <div class=\"error\">\n                Error conectando con el servidor. Verifique que el servicio Fusion esté ejecutándose.\n            </div>\n        "

/-- The `catch` block of `fetchAlerts`. -/
def fetchAlertsCatch (_ : JsError) (dom : Dom) : Dom × Option JsError :=
  ({ dom with alertsContainer := errorHtml, statusText := "Desconectado",
              statusClass := "status inactive" }, none)

/-- The function `fetchAlerts`. -/
def fetchAlerts (env : Env) (r : Response) : Dom → Dom × Option JsError :=
  tryCatch (fetchAlertsTry env r) fetchAlertsCatch

/-! ## loadDashboard -/

/-- Order in which the two handlers of one cycle reach their DOM writes.  Each handler
writes only after its last `await`, in one synchronous run, so the writes of the two do
not interleave. -/
inductive Order where
  | statsFirst
  | alertsFirst
deriving DecidableEq, Repr

/-- The function `loadDashboard`: `await Promise.all([fetchStats(), fetchAlerts()])`, which
rejects when one of the two promises rejects. -/
def loadDashboard (env : Env) (o : Order) (rs ra : Response) (dom : Dom) :
    Dom × Option JsError :=
  match o with
  | .statsFirst =>
    match fetchStats env rs dom with
    | (d1, e1) =>
      match fetchAlerts env ra d1 with
      | (d2, e2) => (d2, match e1 with | some e => some e | none => e2)
  | .alertsFirst =>
    match fetchAlerts env ra dom with
    | (d1, e1) =>
      match fetchStats env rs d1 with
      | (d2, e2) => (d2, match e2 with | some e => some e | none => e1)

/-! ## Vocabulary of the statements -/

/-- The property keys of a list of detections, in order. -/
def detectionKeys (env : Env) : List JVal → Except JsError (List String)
  | [] => .ok []
  | det :: rest =>
    match detectionKey env det, detectionKeys env rest with
    | .ok k, .ok ks => .ok (k :: ks)
    | .error e, _ => .error e
    | _, .error e => .error e

/-- Enumeration order of the class keys `ks` of one alert: array indices first by value,
then the other keys by first occurrence in `ks`. -/
def keyBefore (ks : List String) (a b : String) : Prop :=
  match arrayIndex a, arrayIndex b with
  | some i, some j => i < j
  | some _, none => True
  | none, some _ => False
  | none, none => ks.indexOf a < ks.indexOf b

/-- Sum of the numeric counts held in `classGroups`. -/
def countSum (g : Groups) : Nat :=
  (g.map (fun kv => match kv.2 with | .num n => n | .str _ => 0)).sum

/-- The loop of `groupDetections` run on the keys of the detections. -/
def groupKeys : List String → Groups → Groups
  | [], g => g
  | k :: ks, g => groupKeys ks (setKey k (bumped g k) g)

/-- The object `g` groups the keys `ks`: one own property per distinct key, holding the
number of occurrences of the key, enumerated in the order `keyBefore ks`. -/
def GroupedAs (ks : List String) (g : Groups) : Prop :=
  (g.map Prod.fst).Nodup ∧ (∀ k, k ∈ g.map Prod.fst ↔ k ∈ ks) ∧
  (∀ kv ∈ g, kv.2 = .num (ks.count kv.1)) ∧
  (g.map Prod.fst).Pairwise (keyBefore ks) ∧ countSum g = ks.length

/-- Whether a value is a number. -/
def isNum : JVal → Bool
  | .num _ => true
  | _ => false

/-- Whether a value is a string. -/
def isStr : JVal → Bool
  | .str _ => true
  | _ => false

/-- Whether property `k` is missing or satisfies `p`. -/
def absentOr (p : JVal → Bool) (k : String) (kvs : List (String × JVal)) : Bool :=
  match kvs.lookup k with
  | none => true
  | some v => p v

/-- Shape `{total_alerts?, last_alert?, class_counts?}` of a stats body: every field is
missing or of its documented type. -/
def statsShape : JVal → Bool
  | .obj kvs =>
    absentOr isNum "total_alerts" kvs && absentOr isStr "last_alert" kvs &&
    absentOr (fun v => match v with
      | .obj cs => cs.all (fun kv => isNum kv.2)
      | _ => false) "class_counts" kvs
  | _ => false

/-- Shape `{class_name?}` of a detection. -/
def detectionShape : JVal → Bool
  | .obj kvs => absentOr isStr "class_name" kvs
  | _ => false

/-- Shape `{count?, timestamp, detections?}` of an alert record. -/
def alertShape : JVal → Bool
  | .obj kvs =>
    absentOr isNum "count" kvs && absentOr isStr "timestamp" kvs &&
    absentOr (fun v => match v with
      | .arr ds => ds.all detectionShape
      | _ => false) "detections" kvs
  | _ => false

/-- Shape `{alerts?}` of an alerts body. -/
def alertsShape : JVal → Bool
  | .obj kvs =>
    absentOr (fun v => match v with
      | .arr xs => xs.all alertShape
      | _ => false) "alerts" kvs
  | _ => false

/-- A runtime in the UTC time zone, tabulated on the values the handlers are evaluated on
below: the timestamp `2024-01-01T10:00:00Z` of scenario A has its `es-ES` rendering and the
other timestamps used (`T1`, `T2`, a missing one) are not dates; of the integers outside
the safe range only `10^21` has its text.  No input below has an `alerts` value whose
`length` is a string or a `class_counts` that is a string, so `stringIsPositive` and
`surrogateText` are not consulted. -/
def sampleEnv : Env where
  toLocaleTimeString := fun v => match v with
    | .str s => if s = "2024-01-01T10:00:00Z" then "10:00:00" else "Invalid Date"
    | _ => "Invalid Date"
  toLocaleString := fun v => match v with
    | .str s => if s = "2024-01-01T10:00:00Z" then "1/1/2024, 10:00:00" else "Invalid Date"
    | _ => "Invalid Date"
  stringIsPositive := fun _ => false
  numberToString := fun n => if n = 1000000000000000000000 then "1e+21" else "Infinity"
  surrogateText := fun _ => "?"

/-- A page showing the results of an earlier cycle. -/
def sampleDom : Dom where
  totalAlerts := "7"
  lastAlert := "9:30:00"
  classStats := "<div class=\"loading\">No hay datos</div>"
  alertsContainer := "<div class=\"loading\">No hay alertas registradas</div>"
  statusText := "Conectado"
  statusClass := "status active"

/-- A detection `{class_name: s}`. -/
def detectionOf (s : String) : JVal :=
  .obj [("class_name", .str s)]

/-! ## Frame properties of the two handlers -/

theorem fetchStatsTry_thrown_indep (env : Env) (r : Response) (d d' : Dom) :
    (fetchStatsTry env r d).2 = (fetchStatsTry env r d').2 := by
  cases r <;> simp only [fetchStatsTry]
  split <;> [rfl; skip]
  split <;> [rfl; skip]
  split <;> rfl

theorem fetchAlertsTry_thrown_indep (env : Env) (r : Response) (d d' : Dom) :
    (fetchAlertsTry env r d).2 = (fetchAlertsTry env r d').2 := by
  cases r <;> simp only [fetchAlertsTry]
  split <;> rfl

theorem fetchAlertsTry_thrown_dom (env : Env) (r : Response) (d : Dom)
    (h : (fetchAlertsTry env r d).2 ≠ none) : (fetchAlertsTry env r d).1 = d := by
  cases r <;> simp only [fetchAlertsTry] at h ⊢
  split <;> simp_all

theorem fetchStats_fst_of_ok (env : Env) (r : Response) (d : Dom)
    (h : (fetchStatsTry env r d).2 = none) :
    (fetchStats env r d).1 = (fetchStatsTry env r d).1 := by
  unfold fetchStats tryCatch
  split
  · next d1 heq => rw [heq]
  · next d1 e heq => rw [heq] at h; simp at h

theorem fetchStats_fst_of_thrown (env : Env) (r : Response) (d : Dom)
    (h : (fetchStatsTry env r d).2 ≠ none) :
    (fetchStats env r d).1 =
      { (fetchStatsTry env r d).1 with
        statusText := "Desconectado", statusClass := "status inactive" } := by
  unfold fetchStats tryCatch
  split
  · next d1 heq => rw [heq] at h; simp at h
  · next d1 e heq => rw [heq]; rfl

theorem fetchAlerts_fst_of_ok (env : Env) (r : Response) (d : Dom)
    (h : (fetchAlertsTry env r d).2 = none) :
    (fetchAlerts env r d).1 = (fetchAlertsTry env r d).1 := by
  unfold fetchAlerts tryCatch
  split
  · next d1 heq => rw [heq]
  · next d1 e heq => rw [heq] at h; simp at h

theorem fetchAlerts_fst_of_thrown (env : Env) (r : Response) (d : Dom)
    (h : (fetchAlertsTry env r d).2 ≠ none) :
    (fetchAlerts env r d).1 =
      { d with alertsContainer := errorHtml, statusText := "Desconectado",
               statusClass := "status inactive" } := by
  have hd := fetchAlertsTry_thrown_dom env r d h
  unfold fetchAlerts tryCatch
  split
  · next d1 heq => rw [heq] at h; simp at h
  · next d1 e heq => rw [heq] at hd; simp at hd; subst hd; rfl

theorem fetchStats_snd (env : Env) (r : Response) (d : Dom) : (fetchStats env r d).2 = none := by
  unfold fetchStats tryCatch
  split <;> rfl

theorem fetchAlerts_snd (env : Env) (r : Response) (d : Dom) :
    (fetchAlerts env r d).2 = none := by
  unfold fetchAlerts tryCatch
  split <;> rfl

theorem fetchStatsTry_frame (env : Env) (r : Response) (d : Dom) :
    (fetchStatsTry env r d).1.alertsContainer = d.alertsContainer ∧
    (fetchStatsTry env r d).1.statusText = d.statusText ∧
    (fetchStatsTry env r d).1.statusClass = d.statusClass := by
  cases r with
  | json data =>
    simp only [fetchStatsTry]
    split <;> [exact ⟨rfl, rfl, rfl⟩; skip]
    split <;> [exact ⟨rfl, rfl, rfl⟩; skip]
    split <;> exact ⟨rfl, rfl, rfl⟩
  | _ => exact ⟨rfl, rfl, rfl⟩

theorem fetchAlertsTry_status_of_ok (env : Env) (r : Response) (d : Dom)
    (h : (fetchAlertsTry env r d).2 = none) :
    (fetchAlertsTry env r d).1.statusText = "Conectado" ∧
    (fetchAlertsTry env r d).1.statusClass = "status active" := by
  cases r <;> simp only [fetchAlertsTry] at h ⊢ <;> try simp at h
  split <;> simp_all

theorem fetchAlerts_status (env : Env) (r : Response) (d : Dom) :
    (fetchAlerts env r d).1.statusText =
      (if (fetchAlertsTry env r d).2 = none then "Conectado" else "Desconectado") ∧
    (fetchAlerts env r d).1.statusClass =
      (if (fetchAlertsTry env r d).2 = none then "status active" else "status inactive") := by
  by_cases h : (fetchAlertsTry env r d).2 = none
  · rw [fetchAlerts_fst_of_ok env r d h, if_pos h, if_pos h]
    exact fetchAlertsTry_status_of_ok env r d h
  · rw [fetchAlerts_fst_of_thrown env r d h, if_neg h, if_neg h]
    exact ⟨rfl, rfl⟩

theorem fetchStats_status (env : Env) (r : Response) (d : Dom) :
    (fetchStats env r d).1.statusText =
      (if (fetchStatsTry env r d).2 = none then d.statusText else "Desconectado") ∧
    (fetchStats env r d).1.statusClass =
      (if (fetchStatsTry env r d).2 = none then d.statusClass else "status inactive") := by
  by_cases h : (fetchStatsTry env r d).2 = none
  · rw [fetchStats_fst_of_ok env r d h, if_pos h, if_pos h]
    exact (fetchStatsTry_frame env r d).2
  · rw [fetchStats_fst_of_thrown env r d h, if_neg h, if_neg h]
    exact ⟨rfl, rfl⟩

theorem fetchAlerts_frame (env : Env) (r : Response) (d : Dom) :
    (fetchAlerts env r d).1.totalAlerts = d.totalAlerts ∧
    (fetchAlerts env r d).1.lastAlert = d.lastAlert ∧
    (fetchAlerts env r d).1.classStats = d.classStats := by
  by_cases h : (fetchAlertsTry env r d).2 = none
  · rw [fetchAlerts_fst_of_ok env r d h]
    cases r <;> simp only [fetchAlertsTry] at h ⊢ <;> try simp at h
    split <;> simp_all
  · rw [fetchAlerts_fst_of_thrown env r d h]
    exact ⟨rfl, rfl, rfl⟩

theorem fetchAlerts_container_indep (env : Env) (r : Response) (d d' : Dom) :
    (fetchAlerts env r d).1.alertsContainer = (fetchAlerts env r d').1.alertsContainer := by
  by_cases h : (fetchAlertsTry env r d).2 = none
  · have h' : (fetchAlertsTry env r d').2 = none := by
      rw [fetchAlertsTry_thrown_indep env r d' d]; exact h
    rw [fetchAlerts_fst_of_ok env r d h, fetchAlerts_fst_of_ok env r d' h']
    cases r <;> simp only [fetchAlertsTry] at h ⊢ <;> try simp at h
    split <;> simp_all
  · have h' : (fetchAlertsTry env r d').2 ≠ none := by
      rw [fetchAlertsTry_thrown_indep env r d' d]; exact h
    rw [fetchAlerts_fst_of_thrown env r d h, fetchAlerts_fst_of_thrown env r d' h']

theorem fetchStatsTry_regions (env : Env) (r : Response) (d d' : Dom)
    (h1 : d.totalAlerts = d'.totalAlerts) (h2 : d.lastAlert = d'.lastAlert)
    (h3 : d.classStats = d'.classStats) :
    (fetchStatsTry env r d).1.totalAlerts = (fetchStatsTry env r d').1.totalAlerts ∧
    (fetchStatsTry env r d).1.lastAlert = (fetchStatsTry env r d').1.lastAlert ∧
    (fetchStatsTry env r d).1.classStats = (fetchStatsTry env r d').1.classStats := by
  cases r with
  | json data =>
    simp only [fetchStatsTry]
    split <;> [exact ⟨h1, h2, h3⟩; skip]
    split <;> [exact ⟨rfl, h2, h3⟩; skip]
    split <;> [exact ⟨rfl, rfl, h3⟩; exact ⟨rfl, rfl, rfl⟩]
  | _ => exact ⟨h1, h2, h3⟩

theorem fetchStats_regions (env : Env) (r : Response) (d d' : Dom)
    (h1 : d.totalAlerts = d'.totalAlerts) (h2 : d.lastAlert = d'.lastAlert)
    (h3 : d.classStats = d'.classStats) :
    (fetchStats env r d).1.totalAlerts = (fetchStats env r d').1.totalAlerts ∧
    (fetchStats env r d).1.lastAlert = (fetchStats env r d').1.lastAlert ∧
    (fetchStats env r d).1.classStats = (fetchStats env r d').1.classStats := by
  have hr := fetchStatsTry_regions env r d d' h1 h2 h3
  by_cases h : (fetchStatsTry env r d).2 = none
  · have h' : (fetchStatsTry env r d').2 = none := by
      rw [fetchStatsTry_thrown_indep env r d' d]; exact h
    rw [fetchStats_fst_of_ok env r d h, fetchStats_fst_of_ok env r d' h']
    exact hr
  · have h' : (fetchStatsTry env r d').2 ≠ none := by
      rw [fetchStatsTry_thrown_indep env r d' d]; exact h
    rw [fetchStats_fst_of_thrown env r d h, fetchStats_fst_of_thrown env r d' h']
    exact hr

theorem fetchStats_container (env : Env) (r : Response) (d : Dom) :
    (fetchStats env r d).1.alertsContainer = d.alertsContainer := by
  by_cases h : (fetchStatsTry env r d).2 = none
  · rw [fetchStats_fst_of_ok env r d h]; exact (fetchStatsTry_frame env r d).1
  · rw [fetchStats_fst_of_thrown env r d h]; exact (fetchStatsTry_frame env r d).1

theorem fetchStats_ok_values (env : Env) (data : JVal) (dom : Dom)
    (h : (fetchStatsTry env (.json data) dom).2 = none) :
    ∃ c l p, counterText env data = .ok c ∧ labelText env data = .ok l ∧ panelHtml env data = .ok p ∧
      (fetchStats env (.json data) dom).1 =
        { dom with totalAlerts := c, lastAlert := l, classStats := p } := by
  rw [fetchStats_fst_of_ok env _ dom h]
  simp only [fetchStatsTry] at h ⊢
  cases hc : counterText env data with
  | error e => rw [hc] at h; simp at h
  | ok c =>
    cases hl : labelText env data with
    | error e => rw [hc, hl] at h; simp at h
    | ok l =>
      cases hp : panelHtml env data with
      | error e => rw [hc, hl, hp] at h; simp at h
      | ok p => exact ⟨c, l, p, rfl, rfl, rfl, rfl⟩

/-- C6: when `fetchStats` fails by a rejected `fetch` (transport failure), a non-success
HTTP status or a body that is not valid JSON, the DOM it leaves is the prior DOM with only
the connectivity indicator changed, to text `Desconectado` and class `status inactive`:
counter, label, panel and alerts container are exactly as before the call. -/
theorem fetchStats_failure_changes_only_indicator (env : Env) (dom : Dom) :
    (fetchStats env .rejected dom).1 =
      { dom with statusText := "Desconectado", statusClass := "status inactive" } ∧
    (fetchStats env .notOk dom).1 =
      { dom with statusText := "Desconectado", statusClass := "status inactive" } ∧
    (fetchStats env .invalidJson dom).1 =
      { dom with statusText := "Desconectado", statusClass := "status inactive" } :=
  ⟨rfl, rfl, rfl⟩

/-- C7: when the `try` block of `fetchStats` completes on a parsed body, the text and CSS
class of `status` and the HTML of `alerts-container` are as before the call, and the DOM
left is the prior DOM with the counter, the label and the class statistics panel
replaced by the three values computed from the body. -/
theorem fetchStats_success_frame (env : Env) (data : JVal) (dom : Dom)
    (h : (fetchStatsTry env (.json data) dom).2 = none) :
    (fetchStats env (.json data) dom).1.statusText = dom.statusText ∧
    (fetchStats env (.json data) dom).1.statusClass = dom.statusClass ∧
    (fetchStats env (.json data) dom).1.alertsContainer = dom.alertsContainer ∧
    ∃ c l p, counterText env data = .ok c ∧ labelText env data = .ok l ∧ panelHtml env data = .ok p ∧
      (fetchStats env (.json data) dom).1 =
        { dom with totalAlerts := c, lastAlert := l, classStats := p } := by
  obtain ⟨c, l, p, hc, hl, hp, hd⟩ := fetchStats_ok_values env data dom h
  refine ⟨?_, ?_, ?_, c, l, p, hc, hl, hp, hd⟩ <;> rw [hd]

/-- Witness of C7 on the stats body of scenario A. -/
theorem fetchStats_success_frame_witness :
    (fetchStats sampleEnv (.json (.obj [("total_alerts", .num 5),
        ("last_alert", .str "2024-01-01T10:00:00Z"),
        ("class_counts", .obj [("person", .num 3), ("car", .num 2)])])) sampleDom).1.statusText
      = sampleDom.statusText :=
  (fetchStats_success_frame sampleEnv (.obj [("total_alerts", .num 5),
        ("last_alert", .str "2024-01-01T10:00:00Z"),
        ("class_counts", .obj [("person", .num 3), ("car", .num 2)])]) sampleDom
    (by decide)).1

/-- C8: when `fetchAlerts` fails, by a rejected `fetch` (transport failure), a non-success
status, invalid JSON, or a parsed body on which the `try` block throws during rendering,
the DOM left is the prior DOM with `alerts-container` holding exactly the fixed error panel
and the indicator set to `Desconectado` / `status inactive`; counter, label and panel are
unchanged. -/
theorem fetchAlerts_failure_shows_error (env : Env) (r : Response) (dom : Dom)
    (h : r = .rejected ∨ r = .notOk ∨ r = .invalidJson ∨
      (fetchAlertsTry env r dom).2 ≠ none) :
    (fetchAlerts env r dom).1 =
      { dom with
        alertsContainer := "\n            <div class=\"error\">\n                Error conectando con el servidor. Verifique que el servicio Fusion esté ejecutándose.\n            </div>\n        ",
        statusText := "Desconectado", statusClass := "status inactive" } := by
  have ht : (fetchAlertsTry env r dom).2 ≠ none := by
    rcases h with rfl | rfl | rfl | h
    · simp [fetchAlertsTry]
    · simp [fetchAlertsTry]
    · simp [fetchAlertsTry]
    · exact h
  exact fetchAlerts_fst_of_thrown env r dom ht

/-- Witness of C8 on the wrong-shaped body `{alerts: [null]}`. -/
theorem fetchAlerts_failure_shows_error_witness :
    (fetchAlerts sampleEnv (.json (.obj [("alerts", .arr [.null])])) sampleDom).1 =
      { sampleDom with alertsContainer := errorHtml, statusText := "Desconectado",
                       statusClass := "status inactive" } :=
  fetchAlerts_failure_shows_error sampleEnv (.json (.obj [("alerts", .arr [.null])])) sampleDom
    (Or.inr (Or.inr (Or.inr (by decide))))

/-- Counterexample to C9: in a cycle where the alerts request is rejected and applied first
and the stats request succeeds and is applied last, the indicator ends as `Desconectado`
with class `status inactive`, not Connected. -/
theorem indicator_not_connected_after_last_success :
    (fetchStatsTry sampleEnv (.json (.obj [])) (fetchAlerts sampleEnv .rejected sampleDom).1).2
      = none ∧
    (loadDashboard sampleEnv .alertsFirst (.json (.obj [])) .rejected sampleDom).1.statusText
      = "Desconectado" ∧
    (loadDashboard sampleEnv .alertsFirst (.json (.obj [])) .rejected sampleDom).1.statusClass
      = "status inactive" := by
  decide

/-- C9, amended: after one cycle the indicator is Connected (`Conectado`, `status active`)
exactly when the alerts request succeeded and, in case the stats result was applied last,
the stats request succeeded too; otherwise it is Disconnected (`Desconectado`,
`status inactive`).  So a failure applied last always shows Disconnected, an alerts success
applied last always shows Connected, and a stats success applied last leaves what the
alerts result set. -/
theorem indicator_after_cycle (env : Env) (o : Order) (rs ra : Response) (dom : Dom) :
    (loadDashboard env o rs ra dom).1.statusText =
      (if (fetchAlertsTry env ra dom).2 = none ∧
          (o = .statsFirst ∨ (fetchStatsTry env rs dom).2 = none)
        then "Conectado" else "Desconectado") ∧
    (loadDashboard env o rs ra dom).1.statusClass =
      (if (fetchAlertsTry env ra dom).2 = none ∧
          (o = .statsFirst ∨ (fetchStatsTry env rs dom).2 = none)
        then "status active" else "status inactive") := by
  cases o with
  | statsFirst =>
    simp only [loadDashboard, true_or, and_true]
    have := fetchAlerts_status env ra (fetchStats env rs dom).1
    rw [fetchAlertsTry_thrown_indep env ra _ dom] at this
    exact this
  | alertsFirst =>
    simp only [loadDashboard, false_or, reduceCtorEq]
    have hs := fetchStats_status env rs (fetchAlerts env ra dom).1
    rw [fetchStatsTry_thrown_indep env rs _ dom] at hs
    have ha := fetchAlerts_status env ra dom
    rw [hs.1, hs.2, ha.1, ha.2]
    by_cases h1 : (fetchAlertsTry env ra dom).2 = none <;>
      by_cases h2 : (fetchStatsTry env rs dom).2 = none <;> simp [h1, h2]

/-- C10: for every outcome of the two requests and either order of application, neither
`fetchStats` nor `fetchAlerts` rejects, `loadDashboard` does not reject, and after the
cycle the counter, label and panel are what `fetchStats` leaves and the alerts container
is what `fetchAlerts` leaves, whatever the outcome of the other request. -/
theorem loadDashboard_applies_both (env : Env) (o : Order) (rs ra : Response) (dom : Dom) :
    (fetchStats env rs dom).2 = none ∧ (fetchAlerts env ra dom).2 = none ∧
    (loadDashboard env o rs ra dom).2 = none ∧
    (loadDashboard env o rs ra dom).1.totalAlerts = (fetchStats env rs dom).1.totalAlerts ∧
    (loadDashboard env o rs ra dom).1.lastAlert = (fetchStats env rs dom).1.lastAlert ∧
    (loadDashboard env o rs ra dom).1.classStats = (fetchStats env rs dom).1.classStats ∧
    (loadDashboard env o rs ra dom).1.alertsContainer =
      (fetchAlerts env ra dom).1.alertsContainer := by
  refine ⟨fetchStats_snd env rs dom, fetchAlerts_snd env ra dom, ?_, ?_⟩
  · cases o <;> simp only [loadDashboard, fetchStats_snd, fetchAlerts_snd]
  · cases o with
    | statsFirst =>
      simp only [loadDashboard]
      have hf := fetchAlerts_frame env ra (fetchStats env rs dom).1
      exact ⟨hf.1, hf.2.1, hf.2.2, fetchAlerts_container_indep env ra _ dom⟩
    | alertsFirst =>
      simp only [loadDashboard]
      have hf := fetchAlerts_frame env ra dom
      have hr := fetchStats_regions env rs (fetchAlerts env ra dom).1 dom hf.1 hf.2.1 hf.2.2
      exact ⟨hr.1, hr.2.1, hr.2.2, fetchStats_container env rs _⟩

/-! ## The two rendering loops -/

theorem foldl_append_eq (l : List String) (acc : String) :
    l.foldl (fun r s => r ++ s) acc = acc ++ String.join l := by
  induction l generalizing acc with
  | nil => simp [String.join]
  | cons a l ih =>
    have h1 : String.join (a :: l) = ("" ++ a) ++ String.join l := by
      unfold String.join
      exact ih ("" ++ a)
    rw [List.foldl_cons, ih, h1, String.empty_append, String.append_assoc]

theorem join_cons_eq (a : String) (l : List String) :
    String.join (a :: l) = a ++ String.join l := by
  have h := foldl_append_eq (a :: l) ""
  have h2 := foldl_append_eq l ("" ++ a)
  rw [List.foldl_cons, h2, String.empty_append] at h
  rw [String.empty_append] at h
  exact h.symm

theorem forall₂_getElem? {α β : Type} {R : α → β → Prop} {l1 : List α} {l2 : List β}
    (h : List.Forall₂ R l1 l2) (i : Nat) (hi : i < l1.length) :
    ∃ a b, l1[i]? = some a ∧ l2[i]? = some b ∧ R a b := by
  induction h generalizing i with
  | nil => simp at hi
  | cons hab _ ih =>
    cases i with
    | zero => exact ⟨_, _, by simp, by simp, hab⟩
    | succ j =>
      simp only [List.length_cons, Nat.add_lt_add_iff_right] at hi
      simpa using ih j hi

theorem tilesLoop_ok (env : Env) (kvs : List (String × JVal)) (html out : String)
    (h : tilesLoop env kvs html = .ok out) :
    ∃ tiles : List String, out = html ++ String.join tiles ∧
      List.Forall₂ (fun kv t => ∃ c, toStringJS env kv.2 = .ok c ∧ t = statTile c kv.1)
        kvs tiles := by
  induction kvs generalizing html with
  | nil =>
    simp only [tilesLoop, Except.ok.injEq] at h
    exact ⟨[], by simp [String.join, ← h], List.Forall₂.nil⟩
  | cons kv rest ih =>
    obtain ⟨name, v⟩ := kv
    simp only [tilesLoop] at h
    cases hv : toStringJS env v with
    | error e => rw [hv] at h; simp at h
    | ok c =>
      rw [hv] at h
      obtain ⟨tiles, hout, hall⟩ := ih _ h
      refine ⟨statTile c name :: tiles, ?_, List.Forall₂.cons ⟨c, hv, rfl⟩ hall⟩
      rw [hout, join_cons_eq, String.append_assoc]

theorem alertsLoop_ok (env : Env) (xs : List JVal) (html out : String)
    (h : alertsLoop env xs html = .ok out) :
    ∃ blocks : List String, out = html ++ String.join blocks ∧
      List.Forall₂ (fun a b => renderAlert env a = .ok b) xs blocks := by
  induction xs generalizing html with
  | nil =>
    simp only [alertsLoop, Except.ok.injEq] at h
    exact ⟨[], by simp [String.join, ← h], List.Forall₂.nil⟩
  | cons a rest ih =>
    simp only [alertsLoop] at h
    cases hv : renderAlert env a with
    | error e => rw [hv] at h; simp at h
    | ok b =>
      rw [hv] at h
      obtain ⟨blocks, hout, hall⟩ := ih _ h
      refine ⟨b :: blocks, ?_, List.Forall₂.cons hv hall⟩
      rw [hout, join_cons_eq, String.append_assoc]

theorem fetchStatsTry_ok_classStats (env : Env) (data : JVal) (dom : Dom)
    (h : (fetchStatsTry env (.json data) dom).2 = none) :
    panelHtml env data = .ok (fetchStats env (.json data) dom).1.classStats := by
  rw [fetchStats_fst_of_ok env _ dom h]
  simp only [fetchStatsTry] at h ⊢
  cases hc : counterText env data with
  | error e => rw [hc] at h; simp at h
  | ok c =>
    cases hl : labelText env data with
    | error e => rw [hc, hl] at h; simp at h
    | ok l =>
      cases hp : panelHtml env data with
      | error e => rw [hc, hl, hp] at h; simp at h
      | ok p => rfl

theorem fetchAlertsTry_ok_container (env : Env) (data : JVal) (dom : Dom)
    (h : (fetchAlertsTry env (.json data) dom).2 = none) :
    alertsHtml env data = .ok (fetchAlerts env (.json data) dom).1.alertsContainer := by
  rw [fetchAlerts_fst_of_ok env _ dom h]
  simp only [fetchAlertsTry] at h ⊢
  cases hc : alertsHtml env data with
  | error e => rw [hc] at h; simp at h
  | ok c => rfl

set_option maxRecDepth 100000 in
/-- Counterexample to C2: a stats body whose `class_counts` has one entry, with a class name
that contains markup, makes `fetchStats` write the very HTML it writes for the two entries
of scenario A, which holds two `stat-item` elements: the HTML written does not hold exactly
one tile per entry. -/
theorem one_entry_writes_two_tiles :
    (fetchStats sampleEnv (.json (.obj [("class_counts", .obj [
        ("person</div>\n                    </div>\n                \n                    <div class=\"stat-item\">\n                        <div class=\"stat-value\">2</div>\n                        <div class=\"stat-label\">car",
         .num 3)])])) sampleDom).1.classStats =
      "<div class=\"stats-grid\">\n                    <div class=\"stat-item\">\n                        <div class=\"stat-value\">3</div>\n                        <div class=\"stat-label\">person</div>\n                    </div>\n                \n                    <div class=\"stat-item\">\n                        <div class=\"stat-value\">2</div>\n                        <div class=\"stat-label\">car</div>\n                    </div>\n                </div>" ∧
    (fetchStats sampleEnv (.json (.obj [("class_counts",
        .obj [("person", .num 3), ("car", .num 2)])])) sampleDom).1.classStats =
      "<div class=\"stats-grid\">\n                    <div class=\"stat-item\">\n                        <div class=\"stat-value\">3</div>\n                        <div class=\"stat-label\">person</div>\n                    </div>\n                \n                    <div class=\"stat-item\">\n                        <div class=\"stat-value\">2</div>\n                        <div class=\"stat-label\">car</div>\n                    </div>\n                </div>" := by
  constructor <;> rfl

/-- C2, amended: when the `try` block of `fetchStats` completes on a parsed body whose
`class_counts` is an object with entries `kvs`: if `kvs` is not empty, the HTML assigned to
`class-stats` is the grid opening, then one instance of the `stat-item` template per entry,
in the entries' iteration order, the k-th filled verbatim (no escaping) with the text of
the k-th entry's count (the decimal numeral for a safe integer) and its class name, then
the closing tag; if `kvs` is empty or `class_counts` is missing, the HTML is exactly the
placeholder `<div class="loading">No hay datos</div>`. -/
theorem fetchStats_panel_tiles (env : Env) (data : JVal) (dom : Dom)
    (h : (fetchStatsTry env (.json data) dom).2 = none) :
    (∀ kvs, getField data "class_counts" = .ok (.obj kvs) → kvs ≠ [] →
      ∃ tiles : List String,
        (fetchStats env (.json data) dom).1.classStats =
          "<div class=\"stats-grid\">" ++ String.join tiles ++ "</div>" ∧
        tiles.length = kvs.length ∧
        ∀ k, k < kvs.length → ∃ name v c, kvs[k]? = some (name, v) ∧
          toStringJS env v = .ok c ∧
          (∀ n : Int, v = .num n → n.natAbs < 9007199254740992 → c = toString n) ∧
          tiles[k]? = some
            ("\n                    <div class=\"stat-item\">\n                        <div class=\"stat-value\">"
            ++ c ++ "</div>\n                        <div class=\"stat-label\">"
            ++ name ++ "</div>\n                    </div>\n                ")) ∧
    (getField data "class_counts" = .ok (.obj []) ∨
      getField data "class_counts" = .ok .undefined →
      (fetchStats env (.json data) dom).1.classStats =
        "<div class=\"loading\">No hay datos</div>") := by
  have hp := fetchStatsTry_ok_classStats env data dom h
  generalize (fetchStats env (.json data) dom).1.classStats = out at hp
  constructor
  · intro kvs hk hne
    simp only [panelHtml, hk] at hp
    have hlen : 0 < kvs.length := List.length_pos.mpr hne
    simp only [orElse, truthy, objectEntries, if_true, gt_iff_lt, hlen] at hp
    cases ht : tilesLoop env kvs "<div class=\"stats-grid\">" with
    | error e => rw [ht] at hp; simp at hp
    | ok html =>
      rw [ht] at hp
      simp only [Except.ok.injEq] at hp
      obtain ⟨tiles, hout, hall⟩ := tilesLoop_ok env _ _ _ ht
      refine ⟨tiles, by rw [← hp, hout], hall.length_eq.symm, ?_⟩
      intro k hk
      obtain ⟨⟨name, v⟩, t, h1, h2, c, h3, h4⟩ := forall₂_getElem? hall k hk
      refine ⟨name, v, c, h1, h3, ?_, by rw [h2, h4]; rfl⟩
      intro n hv hn
      subst hv
      simp only [toStringJS, numberText, hn, if_true, Except.ok.injEq] at h3
      exact h3.symm
  · rintro (hk | hk) <;>
      · simp only [panelHtml, hk, orElse, truthy, objectEntries] at hp
        simp at hp
        exact hp.symm

/-- Witness of C2 (amended) on the stats body of scenario A (two entries, two tiles). -/
theorem fetchStats_panel_tiles_witness :
    ∃ tiles : List String,
      (fetchStats sampleEnv (.json (.obj [("total_alerts", .num 5),
        ("last_alert", .str "2024-01-01T10:00:00Z"),
        ("class_counts", .obj [("person", .num 3), ("car", .num 2)])])) sampleDom).1.classStats =
        "<div class=\"stats-grid\">" ++ String.join tiles ++ "</div>" ∧
      tiles.length = 2 := by
  obtain ⟨tiles, h1, h2, _⟩ :=
    (fetchStats_panel_tiles sampleEnv (.obj [("total_alerts", .num 5),
        ("last_alert", .str "2024-01-01T10:00:00Z"),
        ("class_counts", .obj [("person", .num 3), ("car", .num 2)])]) sampleDom
      (by decide)).1 [("person", .num 3), ("car", .num 2)] rfl (by simp)
  exact ⟨tiles, h1, h2⟩

theorem renderAlert_ok_parts (env : Env) (alert : JVal) (b : String)
    (h : renderAlert env alert = .ok b) :
    ∃ ts dets g c, getField alert "timestamp" = .ok ts ∧ detectionsOf alert = .ok dets ∧
      groupDetections env dets [] = .ok g ∧ countText env alert = .ok c ∧
      b = alertBlock c (env.toLocaleString ts) (badges g) := by
  simp only [renderAlert] at h
  cases h1 : getField alert "timestamp" with
  | error e => simp [h1] at h
  | ok ts =>
    simp only [h1] at h
    cases h2 : dateText env env.toLocaleString ts with
    | error e => simp [h2] at h
    | ok date =>
      simp only [h2] at h
      have hdate : date = env.toLocaleString ts := by
        simp only [dateText] at h2
        split at h2
        · simp at h2
        · simp only [Except.ok.injEq] at h2
          exact h2.symm
      subst hdate
      cases h3 : detectionsOf alert with
      | error e => simp [h3] at h
      | ok dets =>
        simp only [h3] at h
        cases h4 : groupDetections env dets [] with
        | error e => simp [h4] at h
        | ok g =>
          simp only [h4] at h
          cases h5 : countText env alert with
          | error e => simp [h5] at h
          | ok c =>
            simp only [h5, Except.ok.injEq] at h
            exact ⟨ts, dets, g, c, rfl, rfl, h4, rfl, h.symm⟩

theorem badges_eq (g : Groups) :
    badges g =
      String.join (g.map (fun kv => "<span class=\"detection-badge\">" ++ kv.1 ++ ": " ++
              (match kv.2 with
                | GVal.num n => toString n
                | GVal.str t => t) ++ "</span>")) := by
  rfl

set_option maxRecDepth 100000 in
/-- Counterexample to C1: an alerts body with one record, whose detection has a class name
that contains markup, makes `fetchAlerts` write the very HTML it writes for a body with two
records, which holds two `alert-item` blocks: the HTML written does not hold exactly one
block per record. -/
theorem one_record_writes_two_blocks :
    (fetchAlerts sampleEnv (.json (.obj [("alerts", .arr [
        .obj [("count", .num 2), ("timestamp", .str "T2"), ("detections", .arr [.obj [
          ("class_name", .str
            "cat: 1</span>\n                        </div>\n                    </div>\n                \n                    <div class=\"alert-item\">\n                        <div class=\"alert-header\">\n                            <strong>Alerta #1</strong>\n                            <span class=\"alert-time\">Invalid Date</span>\n                        </div>\n                        <div class=\"alert-detections\">\n                            <span class=\"detection-badge\">dog")]])]])])) sampleDom).1.alertsContainer =
      "\n                    <div class=\"alert-item\">\n                        <div class=\"alert-header\">\n                            <strong>Alerta #2</strong>\n                            <span class=\"alert-time\">Invalid Date</span>\n                        </div>\n                        <div class=\"alert-detections\">\n                            <span class=\"detection-badge\">cat: 1</span>\n                        </div>\n                    </div>\n                \n                    <div class=\"alert-item\">\n                        <div class=\"alert-header\">\n                            <strong>Alerta #1</strong>\n                            <span class=\"alert-time\">Invalid Date</span>\n                        </div>\n                        <div class=\"alert-detections\">\n                            <span class=\"detection-badge\">dog: 1</span>\n                        </div>\n                    </div>\n                " ∧
    (fetchAlerts sampleEnv (.json (.obj [("alerts", .arr [
        .obj [("count", .num 1), ("timestamp", .str "T1"),
              ("detections", .arr [.obj [("class_name", .str "dog")]])],
        .obj [("count", .num 2), ("timestamp", .str "T2"),
              ("detections", .arr [.obj [("class_name", .str "cat")]])]])])) sampleDom
      ).1.alertsContainer =
      "\n                    <div class=\"alert-item\">\n                        <div class=\"alert-header\">\n                            <strong>Alerta #2</strong>\n                            <span class=\"alert-time\">Invalid Date</span>\n                        </div>\n                        <div class=\"alert-detections\">\n                            <span class=\"detection-badge\">cat: 1</span>\n                        </div>\n                    </div>\n                \n                    <div class=\"alert-item\">\n                        <div class=\"alert-header\">\n                            <strong>Alerta #1</strong>\n                            <span class=\"alert-time\">Invalid Date</span>\n                        </div>\n                        <div class=\"alert-detections\">\n                            <span class=\"detection-badge\">dog: 1</span>\n                        </div>\n                    </div>\n                " := by
  constructor <;> rfl

/-- C1, amended: when the `try` block of `fetchAlerts` completes on a parsed body whose
`alerts` is an array `xs` of length N: if N > 0, the HTML assigned to `alerts-container` is
the concatenation of N instances of the alert template, the instance at position k (from
0) being filled verbatim (no escaping) from the input record at position N - 1 - k, that is,
in reverse input order, with its header text `alert.count || 'N/A'`, the formatted date of
its `timestamp` and one badge per pair of its `classGroups`; if N = 0 or `alerts` is
missing, the HTML is exactly the placeholder
`<div class="loading">No hay alertas registradas</div>`. -/
theorem fetchAlerts_blocks_reversed (env : Env) (data : JVal) (dom : Dom)
    (h : (fetchAlertsTry env (.json data) dom).2 = none) :
    (∀ xs, getField data "alerts" = .ok (.arr xs) → xs ≠ [] →
      ∃ blocks : List String,
        (fetchAlerts env (.json data) dom).1.alertsContainer = String.join blocks ∧
        blocks.length = xs.length ∧
        ∀ k, k < xs.length → ∃ a ts dets g c, xs[xs.length - 1 - k]? = some a ∧
          getField a "timestamp" = .ok ts ∧ detectionsOf a = .ok dets ∧
          groupDetections env dets [] = .ok g ∧ countText env a = .ok c ∧
          blocks[k]? = some
            ("\n                    <div class=\"alert-item\">\n                        <div class=\"alert-header\">\n                            <strong>Alerta #"
            ++ c ++ "</strong>\n                            <span class=\"alert-time\">"
            ++ env.toLocaleString ts ++ "</span>\n                        </div>\n                        <div class=\"alert-detections\">\n                            "
            ++ String.join (g.map (fun kv => "<span class=\"detection-badge\">" ++ kv.1 ++ ": " ++
              (match kv.2 with
                | GVal.num n => toString n
                | GVal.str t => t) ++ "</span>")) ++ "\n                        </div>\n                    </div>\n                ")) ∧
    (getField data "alerts" = .ok (.arr []) ∨ getField data "alerts" = .ok .undefined →
      (fetchAlerts env (.json data) dom).1.alertsContainer =
        "<div class=\"loading\">No hay alertas registradas</div>") := by
  have hp := fetchAlertsTry_ok_container env data dom h
  generalize (fetchAlerts env (.json data) dom).1.alertsContainer = out at hp
  constructor
  · intro xs hk hne
    have hlen : 0 < xs.length := List.length_pos.mpr hne
    have hpos : (0 : Int) < (xs.length : Int) := by exact_mod_cast hlen
    simp only [alertsHtml, hk, hasAlerts, truthy, lengthOf, gtZero, if_true, hpos,
      decide_True, reverseJS] at hp
    obtain ⟨blocks, hout, hall⟩ := alertsLoop_ok _ _ _ _ hp
    have hl : blocks.length = xs.length := by
      rw [← hall.length_eq, List.length_reverse]
    refine ⟨blocks, by rw [hout, String.empty_append], hl, ?_⟩
    intro k hk
    obtain ⟨a, b, h1, h2, h3⟩ := forall₂_getElem? hall k (by simpa using hk)
    obtain ⟨ts, dets, g, c, hts, hd, hg, hc, hb⟩ := renderAlert_ok_parts env a b h3
    refine ⟨a, ts, dets, g, c, ?_, hts, hd, hg, hc, ?_⟩
    · rw [← h1, List.getElem?_reverse hk]
    · rw [h2, hb, badges_eq]
      rfl
  · rintro (hk | hk) <;>
      · simp only [alertsHtml, hk, hasAlerts, truthy, lengthOf, gtZero] at hp
        simp at hp
        exact hp.symm

/-- Witness of C1 (amended) on the alerts body of scenario C (two records). -/
theorem fetchAlerts_blocks_reversed_witness :
    ∃ blocks : List String,
      (fetchAlerts sampleEnv (.json (.obj [("alerts", .arr [
          .obj [("count", .num 1), ("timestamp", .str "T1"),
                ("detections", .arr [.obj [("class_name", .str "dog")]])],
          .obj [("count", .num 2), ("timestamp", .str "T2"), ("detections", .arr [])]])]))
        sampleDom).1.alertsContainer = String.join blocks ∧
      blocks.length = 2 := by
  obtain ⟨blocks, h1, h2, _⟩ :=
    (fetchAlerts_blocks_reversed sampleEnv (.obj [("alerts", .arr [
          .obj [("count", .num 1), ("timestamp", .str "T1"),
                ("detections", .arr [.obj [("class_name", .str "dog")]])],
          .obj [("count", .num 2), ("timestamp", .str "T2"), ("detections", .arr [])]])])
      sampleDom (by decide)).1 _ rfl (by simp)
  exact ⟨blocks, h1, h2⟩

/-! ## Defaults for missing fields -/

theorem ownProp_of_none (k : String) (kvs : List (String × JVal)) (h : kvs.lookup k = none) :
    ownProp k kvs = .undefined := by
  simp [ownProp, h]

theorem ownProp_of_some (k : String) (kvs : List (String × JVal)) (v : JVal)
    (h : kvs.lookup k = some v) : ownProp k kvs = v := by
  simp [ownProp, h]

theorem countText_num (env : Env) (kvs : List (String × JVal)) (n : Int)
    (h : kvs.lookup "count" = some (.num n)) :
    countText env (.obj kvs) = .ok (if n = 0 then "N/A" else numberText env n) := by
  simp only [countText, getField, ownProp_of_some _ _ _ h, orElse, truthy]
  by_cases hn : n = 0 <;> simp [hn, toStringJS]

theorem countText_absent (env : Env) (kvs : List (String × JVal)) (h : kvs.lookup "count" = none) :
    countText env (.obj kvs) = .ok "N/A" := by
  simp [countText, getField, ownProp_of_none _ _ h, orElse, truthy, toStringJS]

theorem detectionKey_str (env : Env) (kvs : List (String × JVal)) (s : String)
    (h : kvs.lookup "class_name" = some (.str s)) :
    detectionKey env (.obj kvs) = .ok (if s = "" then "unknown" else s) := by
  simp only [detectionKey, getField, ownProp_of_some _ _ _ h, orElse, truthy]
  by_cases hs : s = "" <;> simp [hs, toStringJS]

theorem detectionKey_absent (env : Env) (kvs : List (String × JVal))
    (h : kvs.lookup "class_name" = none) : detectionKey env (.obj kvs) = .ok "unknown" := by
  simp [detectionKey, getField, ownProp_of_none _ _ h, orElse, truthy, toStringJS]

theorem renderAlert_ok (env : Env) (alert : JVal) (b : String)
    (h : renderAlert env alert = .ok b) :
    ∃ c date dets g, countText env alert = .ok c ∧ detectionsOf alert = .ok dets ∧
      groupDetections env dets [] = .ok g ∧ b = alertBlock c date (badges g) := by
  simp only [renderAlert] at h
  cases h1 : getField alert "timestamp" with
  | error e => simp [h1] at h
  | ok ts =>
    simp only [h1] at h
    cases h2 : dateText env env.toLocaleString ts with
    | error e => simp [h2] at h
    | ok date =>
      simp only [h2] at h
      cases h3 : detectionsOf alert with
      | error e => simp [h3] at h
      | ok dets =>
        simp only [h3] at h
        cases h4 : groupDetections env dets [] with
        | error e => simp [h4] at h
        | ok g =>
          simp only [h4] at h
          cases h5 : countText env alert with
          | error e => simp [h5] at h
          | ok c =>
            simp only [h5, Except.ok.injEq] at h
            exact ⟨c, date, dets, g, rfl, rfl, h4, h.symm⟩

/-- Counterexample to C5: an alert whose `count` is present and equal to 0 is rendered
with header text `N/A`, not `0`, and a detection whose `class_name` is present and empty is
grouped under `unknown`, not under the empty string. -/
theorem zero_count_and_empty_class_take_defaults :
    renderAlert sampleEnv (.obj [("count", .num 0), ("timestamp", .str "T1"),
        ("detections", .arr [.obj [("class_name", .str "")]])]) =
      .ok (alertBlock "N/A" "Invalid Date"
        "<span class=\"detection-badge\">unknown: 1</span>") ∧
    countText sampleEnv (.obj [("count", .num 0), ("timestamp", .str "T1"),
        ("detections", .arr [.obj [("class_name", .str "")]])]) ≠ .ok "0" ∧
    groupDetections sampleEnv [.obj [("class_name", .str "")]] [] =
      .ok [("unknown", .num 1)] := by
  refine ⟨rfl, by decide, by decide⟩

/-- The header of a count of `10^21` is the runtime's exponent form, not the decimal
numeral. -/
theorem large_count_uses_runtime_text :
    countText sampleEnv (.obj [("count", .num 1000000000000000000000)]) = .ok "1e+21" := by
  decide

/-- C5, amended: the header of a rendered alert block is the text `alert.count || 'N/A'`;
for an alert whose `count` is a number it is the text of that number (its decimal numeral
when it is a safe integer, the runtime's text of the number for a larger magnitude) when the
number is not 0, and it is `N/A` when `count` is 0 or missing.  A detection whose
`class_name` is a non-empty string has that string as its class key (and, when the string
does not name a property inherited from `Object.prototype`, a lone such detection forms
the group with that key and count 1); the key is `unknown` when `class_name` is the empty
string or missing. -/
theorem count_and_class_name_defaults (env : Env) :
    (∀ alert b, renderAlert env alert = .ok b →
      ∃ c date inner, countText env alert = .ok c ∧ b =
        ("\n                    <div class=\"alert-item\">\n                        <div class=\"alert-header\">\n                            <strong>Alerta #"
          ++ c ++ "</strong>\n                            <span class=\"alert-time\">"
          ++ date ++ "</span>\n                        </div>\n                        <div class=\"alert-detections\">\n                            "
          ++ inner ++ "\n                        </div>\n                    </div>\n                ")) ∧
    (∀ kvs n, kvs.lookup "count" = some (.num n) → n ≠ 0 → n.natAbs < 9007199254740992 →
      countText env (.obj kvs) = .ok (toString n)) ∧
    (∀ kvs n, kvs.lookup "count" = some (.num n) → 9007199254740992 ≤ n.natAbs →
      countText env (.obj kvs) = .ok (env.numberToString n)) ∧
    (∀ kvs, kvs.lookup "count" = some (.num 0) ∨ kvs.lookup "count" = none →
      countText env (.obj kvs) = .ok "N/A") ∧
    (∀ kvs s, kvs.lookup "class_name" = some (.str s) → s ≠ "" →
      detectionKey env (.obj kvs) = .ok s ∧
      (inheritedText s = none → groupDetections env [.obj kvs] [] = .ok [(s, .num 1)])) ∧
    (∀ kvs, kvs.lookup "class_name" = some (.str "") ∨ kvs.lookup "class_name" = none →
      detectionKey env (.obj kvs) = .ok "unknown") := by
  refine ⟨?_, ?_, ?_, ?_, ?_, ?_⟩
  · intro alert b h
    obtain ⟨c, date, _, g, h1, _, _, h2⟩ := renderAlert_ok env alert b h
    exact ⟨c, date, badges g, h1, h2⟩
  · intro kvs n h hn hb
    rw [countText_num env kvs n h, if_neg hn]
    simp [numberText, hb]
  · intro kvs n h hb
    have hn : n ≠ 0 := by
      intro h0
      subst h0
      simp at hb
    rw [countText_num env kvs n h, if_neg hn]
    simp [numberText, Nat.not_lt.mpr hb]
  · rintro kvs (h | h)
    · rw [countText_num env kvs 0 h, if_pos rfl]
    · exact countText_absent env kvs h
  · intro kvs s h hs
    have hk : detectionKey env (.obj kvs) = .ok s := by
      rw [detectionKey_str env kvs s h, if_neg hs]
    refine ⟨hk, fun hi => ?_⟩
    have hp : s ≠ "__proto__" := by
      intro heq
      rw [heq] at hi
      simp [inheritedText] at hi
    simp [groupDetections, hk, setKey, bumped, hi, hp, insertKey]
  · rintro kvs (h | h)
    · rw [detectionKey_str env kvs "" h, if_pos rfl]
    · exact detectionKey_absent env kvs h

/-- Witness of C5 (amended) on the alert `{count: 3}`. -/
theorem count_and_class_name_defaults_witness :
    countText sampleEnv (.obj [("count", .num 3)]) = .ok (toString (3 : Int)) :=
  (count_and_class_name_defaults sampleEnv).2.1 [("count", .num 3)] 3 rfl (by decide)
    (by decide)

theorem isNum_elim (v : JVal) (h : isNum v = true) : ∃ n, v = .num n := by
  cases v <;> simp [isNum] at h
  exact ⟨_, rfl⟩

theorem isStr_elim (v : JVal) (h : isStr v = true) : ∃ s, v = .str s := by
  cases v <;> simp [isStr] at h
  exact ⟨_, rfl⟩

theorem counterText_absent (env : Env) (kvs : List (String × JVal))
    (h : kvs.lookup "total_alerts" = none) : counterText env (.obj kvs) = .ok "0" := by
  simp [counterText, getField, ownProp_of_none _ _ h, orElse, truthy, toStringJS, numberText]
  rfl

theorem labelText_absent (env : Env) (kvs : List (String × JVal))
    (h : kvs.lookup "last_alert" = none) : labelText env (.obj kvs) = .ok "N/A" := by
  simp [labelText, getField, ownProp_of_none _ _ h, truthy]

theorem panelHtml_absent (env : Env) (kvs : List (String × JVal))
    (h : kvs.lookup "class_counts" = none) : panelHtml env (.obj kvs) = .ok noDataHtml := by
  simp [panelHtml, getField, ownProp_of_none _ _ h, orElse, truthy, objectEntries]

theorem alertsHtml_absent (env : Env) (kvs : List (String × JVal))
    (h : kvs.lookup "alerts" = none) : alertsHtml env (.obj kvs) = .ok noAlertsHtml := by
  simp [alertsHtml, getField, ownProp_of_none _ _ h, hasAlerts, truthy]

theorem detectionsOf_absent (kvs : List (String × JVal))
    (h : kvs.lookup "detections" = none) : detectionsOf (.obj kvs) = .ok [] := by
  simp [detectionsOf, getField, ownProp_of_none _ _ h, orElse, truthy]

theorem tilesLoop_of_nums (env : Env) (cs : List (String × JVal)) (html : String)
    (h : cs.all (fun kv => isNum kv.2) = true) : ∃ out, tilesLoop env cs html = .ok out := by
  induction cs generalizing html with
  | nil => exact ⟨html, rfl⟩
  | cons kv rest ih =>
    obtain ⟨name, v⟩ := kv
    simp only [List.all_cons, Bool.and_eq_true] at h
    obtain ⟨n, rfl⟩ := isNum_elim v h.1
    simp only [tilesLoop, toStringJS]
    exact ih _ h.2

theorem statsShape_ok (env : Env) (data : JVal) (h : statsShape data = true) :
    ∃ c l p, counterText env data = .ok c ∧ labelText env data = .ok l ∧
      panelHtml env data = .ok p := by
  cases data <;> simp only [statsShape, Bool.and_eq_true] at h <;> try simp at h
  rename_i kvs
  obtain ⟨⟨h1, h2⟩, h3⟩ := h
  have hc : ∃ c, counterText env (.obj kvs) = .ok c := by
    cases hl : kvs.lookup "total_alerts" with
    | none => exact ⟨_, counterText_absent env kvs hl⟩
    | some v =>
      simp only [absentOr, hl] at h1
      obtain ⟨n, rfl⟩ := isNum_elim v h1
      simp only [counterText, getField, ownProp_of_some _ _ _ hl, orElse, truthy]
      by_cases hn : n = 0 <;> simp [hn, toStringJS]
  have hlab : ∃ l, labelText env (.obj kvs) = .ok l := by
    cases hl : kvs.lookup "last_alert" with
    | none => exact ⟨_, labelText_absent env kvs hl⟩
    | some v =>
      simp only [absentOr, hl] at h2
      obtain ⟨t, rfl⟩ := isStr_elim v h2
      simp only [labelText, getField, ownProp_of_some _ _ _ hl, truthy]
      by_cases ht : t = "" <;> simp [ht, dateText, toStringJS]
  have hp : ∃ p, panelHtml env (.obj kvs) = .ok p := by
    cases hl : kvs.lookup "class_counts" with
    | none => exact ⟨_, panelHtml_absent env kvs hl⟩
    | some v =>
      simp only [absentOr, hl] at h3
      cases v <;> simp at h3
      rename_i cs
      simp only [panelHtml, getField, ownProp_of_some _ _ _ hl, orElse, truthy, if_true,
        objectEntries]
      split
      · obtain ⟨out, ho⟩ := tilesLoop_of_nums env cs "<div class=\"stats-grid\">"
          (by simpa using h3)
        rw [ho]
        exact ⟨_, rfl⟩
      · exact ⟨_, rfl⟩
  obtain ⟨c, hc⟩ := hc
  obtain ⟨l, hlab⟩ := hlab
  obtain ⟨p, hp⟩ := hp
  exact ⟨c, l, p, hc, hlab, hp⟩

theorem detectionShape_key (env : Env) (det : JVal) (h : detectionShape det = true) :
    ∃ k, detectionKey env det = .ok k := by
  cases det <;> simp only [detectionShape] at h <;> try simp at h
  rename_i kvs
  cases hl : kvs.lookup "class_name" with
  | none => exact ⟨_, detectionKey_absent env kvs hl⟩
  | some v =>
    simp only [absentOr, hl] at h
    obtain ⟨t, rfl⟩ := isStr_elim v h
    exact ⟨_, detectionKey_str env kvs t hl⟩

theorem groupDetections_of_shape (env : Env) (ds : List JVal) (g : Groups)
    (h : ds.all detectionShape = true) : ∃ g', groupDetections env ds g = .ok g' := by
  induction ds generalizing g with
  | nil => exact ⟨g, rfl⟩
  | cons d rest ih =>
    simp only [List.all_cons, Bool.and_eq_true] at h
    obtain ⟨k, hk⟩ := detectionShape_key env d h.1
    simp only [groupDetections, hk]
    exact ih _ h.2

theorem alertShape_ok (env : Env) (alert : JVal) (h : alertShape alert = true) :
    ∃ b, renderAlert env alert = .ok b := by
  cases alert <;> simp only [alertShape, Bool.and_eq_true] at h <;> try simp at h
  rename_i kvs
  obtain ⟨⟨h1, h2⟩, h3⟩ := h
  have hd : ∃ date, dateText env env.toLocaleString (ownProp "timestamp" kvs) = .ok date := by
    cases hl : kvs.lookup "timestamp" with
    | none => simp [ownProp_of_none _ _ hl, dateText, toStringJS]
    | some v =>
      simp only [absentOr, hl] at h2
      obtain ⟨t, rfl⟩ := isStr_elim v h2
      simp [ownProp_of_some _ _ _ hl, dateText, toStringJS]
  have hg : ∃ dets g, detectionsOf (.obj kvs) = .ok dets ∧
      groupDetections env dets [] = .ok g := by
    cases hl : kvs.lookup "detections" with
    | none => exact ⟨[], [], detectionsOf_absent kvs hl, rfl⟩
    | some v =>
      simp only [absentOr, hl] at h3
      cases v <;> simp at h3
      rename_i ds
      obtain ⟨g, hg⟩ := groupDetections_of_shape env ds [] (by simpa using h3)
      exact ⟨ds, g, by simp [detectionsOf, getField, ownProp_of_some _ _ _ hl, orElse, truthy],
        hg⟩
  have hc : ∃ c, countText env (.obj kvs) = .ok c := by
    cases hl : kvs.lookup "count" with
    | none => exact ⟨_, countText_absent env kvs hl⟩
    | some v =>
      simp only [absentOr, hl] at h1
      obtain ⟨n, rfl⟩ := isNum_elim v h1
      exact ⟨_, countText_num env kvs n hl⟩
  obtain ⟨date, hd⟩ := hd
  obtain ⟨dets, g, hdets, hg⟩ := hg
  obtain ⟨c, hc⟩ := hc
  exact ⟨alertBlock c date (badges g), by simp [renderAlert, getField, hd, hdets, hg, hc]⟩

theorem alertsLoop_of_shape (env : Env) (xs : List JVal) (html : String)
    (h : ∀ a ∈ xs, alertShape a = true) : ∃ out, alertsLoop env xs html = .ok out := by
  induction xs generalizing html with
  | nil => exact ⟨html, rfl⟩
  | cons a rest ih =>
    obtain ⟨b, hb⟩ := alertShape_ok env a (h a (List.mem_cons_self _ _))
    simp only [alertsLoop, hb]
    exact ih _ (fun x hx => h x (List.mem_cons_of_mem _ hx))

theorem alertsShape_ok (env : Env) (data : JVal) (h : alertsShape data = true) :
    ∃ html, alertsHtml env data = .ok html := by
  cases data <;> simp only [alertsShape] at h <;> try simp at h
  rename_i kvs
  cases hl : kvs.lookup "alerts" with
  | none => exact ⟨_, alertsHtml_absent env kvs hl⟩
  | some v =>
    simp only [absentOr, hl] at h
    cases v <;> simp at h
    rename_i xs
    simp only [alertsHtml, getField, ownProp_of_some _ _ _ hl, hasAlerts, truthy, if_true,
      lengthOf, gtZero]
    by_cases hx : (0 : Int) < (xs.length : Int)
    · simp only [hx, decide_True, reverseJS]
      exact alertsLoop_of_shape env xs.reverse ""
        (fun a ha => h a (List.mem_reverse.mp ha))
    · simp only [hx, decide_False]
      exact ⟨_, rfl⟩

/-- C4: for every parsed response object, reading a missing optional field does not throw
and yields the documented default: a missing `total_alerts` gives counter text `0`, a
missing `last_alert` gives label `N/A`, a missing `class_counts` gives the no-data
placeholder, a missing `alerts` gives the no-alerts placeholder, a missing `count` gives
header text `N/A`, a missing `detections` gives no detection, a missing `class_name` gives
the key `unknown`.  On a body of the documented shape, whichever optional fields are
missing, the `try` block of `fetchStats`, respectively `fetchAlerts`, does not throw and the
DOM shows the defaults of the missing fields; an alert of the documented shape is rendered,
with header `N/A` when `count` is missing and without badge when `detections` is missing;
on the stats body `{}` the DOM gets counter `0`, label `N/A` and the placeholder panel. -/
theorem missing_fields_take_defaults (env : Env) (dom : Dom) :
    (∀ kvs, kvs.lookup "total_alerts" = none → counterText env (.obj kvs) = .ok "0") ∧
    (∀ kvs, kvs.lookup "last_alert" = none → labelText env (.obj kvs) = .ok "N/A") ∧
    (∀ kvs, kvs.lookup "class_counts" = none →
      panelHtml env (.obj kvs) = .ok "<div class=\"loading\">No hay datos</div>") ∧
    (∀ kvs, kvs.lookup "alerts" = none →
      alertsHtml env (.obj kvs) = .ok "<div class=\"loading\">No hay alertas registradas</div>") ∧
    (∀ kvs, kvs.lookup "count" = none → countText env (.obj kvs) = .ok "N/A") ∧
    (∀ kvs, kvs.lookup "detections" = none → detectionsOf (.obj kvs) = .ok []) ∧
    (∀ kvs, kvs.lookup "class_name" = none → detectionKey env (.obj kvs) = .ok "unknown") ∧
    (∀ kvs, statsShape (.obj kvs) = true →
      (fetchStatsTry env (.json (.obj kvs)) dom).2 = none ∧
      (kvs.lookup "total_alerts" = none →
        (fetchStats env (.json (.obj kvs)) dom).1.totalAlerts = "0") ∧
      (kvs.lookup "last_alert" = none →
        (fetchStats env (.json (.obj kvs)) dom).1.lastAlert = "N/A") ∧
      (kvs.lookup "class_counts" = none →
        (fetchStats env (.json (.obj kvs)) dom).1.classStats =
          "<div class=\"loading\">No hay datos</div>")) ∧
    (∀ kvs, alertsShape (.obj kvs) = true →
      (fetchAlertsTry env (.json (.obj kvs)) dom).2 = none ∧
      (kvs.lookup "alerts" = none →
        (fetchAlerts env (.json (.obj kvs)) dom).1.alertsContainer =
          "<div class=\"loading\">No hay alertas registradas</div>")) ∧
    (∀ kvs, alertShape (.obj kvs) = true →
      ∃ c date g, renderAlert env (.obj kvs) = .ok (alertBlock c date (badges g)) ∧
        (kvs.lookup "count" = none → c = "N/A") ∧
        (kvs.lookup "detections" = none → g = [])) ∧
    (fetchStats env (.json (.obj [])) dom).1 =
      { dom with totalAlerts := "0", lastAlert := "N/A",
                 classStats := "<div class=\"loading\">No hay datos</div>" } := by
  refine ⟨counterText_absent env, labelText_absent env, panelHtml_absent env,
    alertsHtml_absent env, countText_absent env, detectionsOf_absent, detectionKey_absent env,
    ?_, ?_, ?_, rfl⟩
  · intro kvs h
    obtain ⟨c, l, p, hc, hl, hp⟩ := statsShape_ok env (.obj kvs) h
    have hs : (fetchStatsTry env (.json (.obj kvs)) dom).2 = none := by
      simp [fetchStatsTry, hc, hl, hp]
    obtain ⟨c', l', p', hc', hl', hp', hd⟩ := fetchStats_ok_values env (.obj kvs) dom hs
    rw [hd]
    refine ⟨hs, ?_, ?_, ?_⟩
    · intro ha
      rw [counterText_absent env kvs ha] at hc'
      simp only [Except.ok.injEq] at hc'
      exact hc'.symm
    · intro ha
      rw [labelText_absent env kvs ha] at hl'
      simp only [Except.ok.injEq] at hl'
      exact hl'.symm
    · intro ha
      rw [panelHtml_absent env kvs ha] at hp'
      simp only [Except.ok.injEq] at hp'
      exact hp'.symm
  · intro kvs h
    obtain ⟨html, hh⟩ := alertsShape_ok env (.obj kvs) h
    have hs : (fetchAlertsTry env (.json (.obj kvs)) dom).2 = none := by
      simp [fetchAlertsTry, hh]
    refine ⟨hs, ?_⟩
    intro ha
    have hc := fetchAlertsTry_ok_container env (.obj kvs) dom hs
    rw [alertsHtml_absent env kvs ha] at hc
    simp only [Except.ok.injEq] at hc
    exact hc.symm
  · intro kvs h
    obtain ⟨b, hb⟩ := alertShape_ok env (.obj kvs) h
    obtain ⟨c, date, dets, g, hc, hd, hg, hblock⟩ := renderAlert_ok env (.obj kvs) b hb
    refine ⟨c, date, g, by rw [hb, hblock], ?_, ?_⟩
    · intro ha
      rw [countText_absent env kvs ha] at hc
      simp only [Except.ok.injEq] at hc
      exact hc.symm
    · intro ha
      rw [detectionsOf_absent kvs ha] at hd
      simp only [Except.ok.injEq] at hd
      subst hd
      simp only [groupDetections, Except.ok.injEq] at hg
      exact hg.symm

/-- Witness of C4 on an alerts body whose only alert has no `count` and whose only
detection has no `class_name`. -/
theorem missing_fields_take_defaults_witness :
    (fetchAlertsTry sampleEnv (.json (.obj [("alerts", .arr [.obj [("timestamp", .str "T1"),
      ("detections", .arr [.obj []])]])])) sampleDom).2 = none :=
  ((missing_fields_take_defaults sampleEnv sampleDom).2.2.2.2.2.2.2.2.1
    [("alerts", .arr [.obj [("timestamp", .str "T1"),
      ("detections", .arr [.obj []])]])] (by decide)).1

/-! ## Grouping of detections by class -/

theorem groupDetections_eq (env : Env) (dets : List JVal) (ks : List String) (g : Groups)
    (h : detectionKeys env dets = .ok ks) :
    groupDetections env dets g = .ok (groupKeys ks g) ∧ ks.length = dets.length := by
  induction dets generalizing ks g with
  | nil =>
    simp only [detectionKeys, Except.ok.injEq] at h
    subst h
    exact ⟨rfl, rfl⟩
  | cons d rest ih =>
    simp only [detectionKeys] at h
    cases hd : detectionKey env d with
    | error e => simp [hd] at h
    | ok k =>
      cases hr : detectionKeys env rest with
      | error e => simp [hd, hr] at h
      | ok ks' =>
        simp only [hd, hr, Except.ok.injEq] at h
        subst h
        obtain ⟨h1, h2⟩ := ih ks' (setKey k (bumped g k) g) hr
        simp only [groupDetections, hd, groupKeys, List.length_cons, h2, h1, and_self]

theorem lookup_none_of_not_mem (k : String) (g : Groups) (h : k ∉ g.map Prod.fst) :
    g.lookup k = none := by
  rw [List.lookup_eq_none_iff]
  intro p hp
  simp only [bne_iff_ne, ne_eq]
  intro heq
  exact h (List.mem_map.mpr ⟨p, hp, heq.symm⟩)

theorem lookup_some_of_mem (k : String) (g : Groups) (h : k ∈ g.map Prod.fst) :
    ∃ v, g.lookup k = some v ∧ (k, v) ∈ g := by
  induction g with
  | nil => simp at h
  | cons p t ih =>
    obtain ⟨k', v'⟩ := p
    by_cases hk : k = k'
    · subst hk
      exact ⟨v', by simp, List.mem_cons_self _ _⟩
    · have ht : k ∈ t.map Prod.fst := by
        simp only [List.map_cons, List.mem_cons] at h
        rcases h with h | h
        · exact absurd h hk
        · exact h
      obtain ⟨v, h1, h2⟩ := ih ht
      refine ⟨v, ?_, List.mem_cons_of_mem _ h2⟩
      rw [List.lookup_cons]
      have : (k == k') = false := by simpa using hk
      simp only [this]
      exact h1

theorem updateKey_keys (k : String) (v : GVal) (g : Groups) :
    (updateKey k v g).map Prod.fst = g.map Prod.fst := by
  induction g with
  | nil => rfl
  | cons p t ih =>
    obtain ⟨k', v'⟩ := p
    simp only [updateKey]
    split
    · next h => simp [h]
    · simp [ih]

theorem mem_updateKey (k : String) (v : GVal) (g : Groups) (hn : (g.map Prod.fst).Nodup)
    (kv : String × GVal) (h : kv ∈ updateKey k v g) :
    kv = (k, v) ∨ (kv ∈ g ∧ kv.1 ≠ k) := by
  induction g with
  | nil => simp [updateKey] at h
  | cons p t ih =>
    obtain ⟨k', v'⟩ := p
    simp only [List.map_cons, List.nodup_cons] at hn
    simp only [updateKey] at h
    split at h
    · next hk =>
      subst hk
      rcases List.mem_cons.mp h with h | h
      · exact Or.inl h
      · refine Or.inr ⟨List.mem_cons_of_mem _ h, ?_⟩
        intro heq
        exact hn.1 (List.mem_map.mpr ⟨kv, h, heq⟩)
    · next hk =>
      rcases List.mem_cons.mp h with h | h
      · subst h
        exact Or.inr ⟨List.mem_cons_self _ _, hk⟩
      · rcases ih hn.2 h with h | h
        · exact Or.inl h
        · exact Or.inr ⟨List.mem_cons_of_mem _ h.1, h.2⟩

theorem countSum_cons (p : String × GVal) (t : Groups) :
    countSum (p :: t) = (match p.2 with | .num n => n | .str _ => 0) + countSum t := by
  simp [countSum]

theorem countSum_updateKey (k : String) (c : Nat) (g : Groups)
    (h : g.lookup k = some (.num c)) :
    countSum (updateKey k (.num (c + 1)) g) = countSum g + 1 := by
  induction g with
  | nil => simp at h
  | cons p t ih =>
    obtain ⟨k', v'⟩ := p
    simp only [updateKey]
    by_cases hk : k' = k
    · subst hk
      simp only [List.lookup_cons_self, Option.some.injEq] at h
      subst h
      simp [countSum_cons]
      exact Nat.add_right_comm c 1 _
    · have hb : (k == k') = false := by
        simp only [beq_eq_false_iff_ne, ne_eq]
        exact fun e => hk e.symm
      rw [List.lookup_cons] at h
      simp only [hb] at h
      simp only [hk, if_false, countSum_cons, ih h]
      omega

theorem insertKey_perm (k : String) (v : GVal) (g : Groups) :
    List.Perm (insertKey k v g) ((k, v) :: g) := by
  induction g with
  | nil => exact List.Perm.refl _
  | cons p t ih =>
    obtain ⟨k', v'⟩ := p
    simp only [insertKey]
    split
    · split
      · exact List.Perm.refl _
      · exact (List.Perm.cons _ ih).trans (List.Perm.swap _ _ _)
    · exact List.Perm.refl _
    · exact (List.Perm.cons _ ih).trans (List.Perm.swap _ _ _)

theorem mem_insertKey_keys (k : String) (v : GVal) (g : Groups) (y : String) :
    y ∈ (insertKey k v g).map Prod.fst ↔ y = k ∨ y ∈ g.map Prod.fst := by
  rw [((insertKey_perm k v g).map Prod.fst).mem_iff]
  simp

theorem arrayIndex_inj (a b : String) (i : Nat) (ha : arrayIndex a = some i)
    (hb : arrayIndex b = some i) : a = b := by
  have key : ∀ s : String, arrayIndex s = some i → toString i = s := by
    intro s hs
    simp only [arrayIndex] at hs
    split at hs
    · split at hs
      · next _ n _ hc =>
        simp only [Option.some.injEq] at hs
        subst hs
        exact hc.2
      · simp at hs
    · simp at hs
  rw [← key a ha, ← key b hb]

theorem keyBefore_trans (L : List String) (a b c : String) (h1 : keyBefore L a b)
    (h2 : keyBefore L b c) : keyBefore L a c := by
  unfold keyBefore at *
  cases ha : arrayIndex a <;> cases hb : arrayIndex b <;> cases hc : arrayIndex c <;>
    simp only [ha, hb, hc] at h1 h2 ⊢ <;> omega

theorem keyBefore_append (pre : List String) (k a b : String) (ha : a ∈ pre) (hb : b ∈ pre)
    (h : keyBefore pre a b) : keyBefore (pre ++ [k]) a b := by
  unfold keyBefore at *
  cases hia : arrayIndex a <;> cases hib : arrayIndex b <;> simp only [hia, hib] at h ⊢ <;>
    try exact h
  rw [List.indexOf_append_of_mem ha, List.indexOf_append_of_mem hb]
  exact h

theorem insertKey_pairwise (L : List String) (k : String) (v : GVal) (g : Groups)
    (hp : (g.map Prod.fst).Pairwise (keyBefore L)) (hk : k ∉ g.map Prod.fst)
    (hlast : arrayIndex k = none → ∀ a ∈ g.map Prod.fst, keyBefore L a k) :
    ((insertKey k v g).map Prod.fst).Pairwise (keyBefore L) := by
  induction g with
  | nil => simp [insertKey]
  | cons p t ih =>
    obtain ⟨k', v'⟩ := p
    simp only [List.map_cons, List.pairwise_cons] at hp
    simp only [List.map_cons, List.mem_cons, not_or] at hk
    have iht := ih hp.2 hk.2 (fun hn a ha => hlast hn a (List.mem_cons_of_mem _ ha))
    simp only [insertKey]
    split
    · next i j hi hj =>
      have hkk : i < j → keyBefore L k k' := by
        intro hlt
        simp only [keyBefore, hi, hj]
        exact hlt
      split
      · next hlt =>
        simp only [List.map_cons, List.pairwise_cons, List.mem_cons]
        refine ⟨?_, hp⟩
        rintro x (rfl | hx)
        · exact hkk hlt
        · exact keyBefore_trans L _ _ _ (hkk hlt) (hp.1 x hx)
      · next hnlt =>
        simp only [List.map_cons, List.pairwise_cons]
        refine ⟨?_, iht⟩
        intro y hy
        rcases (mem_insertKey_keys k v t y).mp hy with rfl | hy
        · simp only [keyBefore, hi, hj]
          have hne : i ≠ j := fun e => hk.1 (arrayIndex_inj _ _ j (e ▸ hi) hj)
          omega
        · exact hp.1 y hy
    · next i hi hj =>
      have hkk : keyBefore L k k' := by simp only [keyBefore, hi, hj]
      simp only [List.map_cons, List.pairwise_cons, List.mem_cons]
      refine ⟨?_, hp⟩
      rintro x (rfl | hx)
      · exact hkk
      · exact keyBefore_trans L _ _ _ hkk (hp.1 x hx)
    · next hi =>
      simp only [List.map_cons, List.pairwise_cons]
      refine ⟨?_, iht⟩
      intro y hy
      rcases (mem_insertKey_keys k v t y).mp hy with rfl | hy
      · exact hlast hi k' (List.mem_cons_self _ _)
      · exact hp.1 y hy

theorem groupedAs_nil : GroupedAs [] [] := by
  simp [GroupedAs, countSum]

theorem groupedAs_step (pre : List String) (g : Groups) (k : String)
    (hg : GroupedAs pre g) (hk : inheritedText k = none) :
    GroupedAs (pre ++ [k]) (setKey k (bumped g k) g) := by
  obtain ⟨h1, h2, h3, h4, h5⟩ := hg
  have hproto : k ≠ "__proto__" := by
    intro heq
    rw [heq] at hk
    simp [inheritedText] at hk
  have h4' : (g.map Prod.fst).Pairwise (keyBefore (pre ++ [k])) :=
    h4.imp_of_mem (fun {a b} ha hb hab =>
      keyBefore_append pre k a b ((h2 a).mp ha) ((h2 b).mp hb) hab)
  by_cases hmem : k ∈ pre
  · obtain ⟨v, hlk, hkv⟩ := lookup_some_of_mem k g ((h2 k).mpr hmem)
    have hv : v = .num (pre.count k) := h3 (k, v) hkv
    subst hv
    have hset : setKey k (bumped g k) g = updateKey k (.num (pre.count k + 1)) g := by
      simp [setKey, bumped, hlk, hproto]
    rw [hset]
    refine ⟨?_, ?_, ?_, ?_, ?_⟩
    · rw [updateKey_keys]; exact h1
    · intro x
      rw [updateKey_keys, h2 x]
      simp only [List.mem_append, List.mem_singleton]
      constructor
      · exact Or.inl
      · rintro (hx | rfl)
        · exact hx
        · exact hmem
    · intro kv hkv'
      rcases mem_updateKey k _ g h1 kv hkv' with rfl | ⟨hin, hne⟩
      · simp [List.count_append]
      · rw [h3 kv hin]
        simp [List.count_append, List.count_cons, hne]
    · rw [updateKey_keys]; exact h4'
    · rw [countSum_updateKey k _ g hlk, h5]
      simp
  · have hnot : k ∉ g.map Prod.fst := fun hin => hmem ((h2 k).mp hin)
    have hlk : g.lookup k = none := lookup_none_of_not_mem k g hnot
    have hset : setKey k (bumped g k) g = insertKey k (.num 1) g := by
      simp [setKey, bumped, hlk, hproto, hk]
    rw [hset]
    have hperm := insertKey_perm k (.num 1) g
    refine ⟨?_, ?_, ?_, ?_, ?_⟩
    · rw [(hperm.map Prod.fst).nodup_iff]
      simp only [List.map_cons, List.nodup_cons]
      exact ⟨hnot, h1⟩
    · intro x
      rw [mem_insertKey_keys, h2 x]
      simp only [List.mem_append, List.mem_singleton]
      exact Or.comm
    · intro kv hkv
      rcases List.mem_cons.mp (hperm.mem_iff.mp hkv) with rfl | hin
      · simp [List.count_append, List.count_eq_zero_of_not_mem hmem]
      · have hne : kv.1 ≠ k := by
          intro heq
          exact hnot (List.mem_map.mpr ⟨kv, hin, heq⟩)
        rw [h3 kv hin]
        simp [List.count_append, List.count_cons, hne]
    · refine insertKey_pairwise _ k _ g h4' hnot ?_
      intro hnone a ha
      have hapre : a ∈ pre := (h2 a).mp ha
      unfold keyBefore
      cases hia : arrayIndex a with
      | some i => simp only [hnone]
      | none =>
        simp only [hnone]
        rw [List.indexOf_append_of_mem hapre, List.indexOf_append_of_not_mem hmem]
        have := List.indexOf_lt_length.mpr hapre
        simp
        omega
    · have hs : countSum (insertKey k (.num 1) g) = countSum ((k, .num 1) :: g) := by
        unfold countSum
        exact (hperm.map _).sum_eq
      rw [hs, countSum_cons, h5]
      simp
      omega

theorem groupedAs_groupKeys (ks pre : List String) (g : Groups) (hg : GroupedAs pre g)
    (hk : ∀ k ∈ ks, inheritedText k = none) : GroupedAs (pre ++ ks) (groupKeys ks g) := by
  induction ks generalizing pre g with
  | nil => simpa [groupKeys] using hg
  | cons k rest ih =>
    have hstep := groupedAs_step pre g k hg (hk k (List.mem_cons_self _ _))
    have := ih (pre ++ [k]) _ hstep (fun x hx => hk x (List.mem_cons_of_mem _ hx))
    simpa [groupKeys] using this

/-- A class named `__proto__` reaches the inherited accessor of the plain object and gets
no own property, hence no pair and no badge. -/
theorem inherited_class_name_has_no_group :
    groupDetections sampleEnv [detectionOf "__proto__", detectionOf "dog"] [] = .ok [("dog", .num 1)] := by
  decide

/-- Counterexample to C3: for detections of class `2` then class `1`, the grouping step
yields the pair of class `1` before the pair of class `2`, and the badges are rendered in
that order, not in order of first occurrence. -/
theorem numeric_class_names_not_in_first_seen_order :
    groupDetections sampleEnv [detectionOf "2", detectionOf "1"] [] =
      .ok [("1", .num 1), ("2", .num 1)] ∧
    badges [("1", .num 1), ("2", .num 1)] =
      "<span class=\"detection-badge\">1: 1</span><span class=\"detection-badge\">2: 1</span>" := by
  decide

/-- C3, amended: for the detections of an alert whose class keys `ks` (the text of
`class_name`, or `unknown` when it is missing) name no property inherited from
`Object.prototype`, the grouping step yields one pair per distinct key, holding the number
of detections with that key; the pairs are enumerated with array-index keys first in
ascending numeric order and the other keys after them in order of first occurrence; one
badge `key: count` is rendered per pair in that order, so the counts sum to the number of
detections and no detection gives no badge. -/
theorem grouping_counts_each_class (env : Env) (dets : List JVal) (ks : List String)
    (hkeys : detectionKeys env dets = .ok ks) (hown : ∀ k ∈ ks, inheritedText k = none) :
    ∃ g, groupDetections env dets [] = .ok g ∧
      (g.map Prod.fst).Nodup ∧ (∀ k, k ∈ g.map Prod.fst ↔ k ∈ ks) ∧
      (∀ kv ∈ g, kv.2 = .num (ks.count kv.1)) ∧
      (g.map Prod.fst).Pairwise (keyBefore ks) ∧
      countSum g = dets.length ∧
      badges g = String.join (g.map (fun kv =>
        "<span class=\"detection-badge\">" ++ kv.1 ++ ": " ++ toString (ks.count kv.1)
          ++ "</span>")) ∧
      (∀ kvs, kvs.lookup "class_name" = none → detectionKey env (.obj kvs) = .ok "unknown") ∧
      (∀ alert b, detectionsOf alert = .ok dets → renderAlert env alert = .ok b →
        ∃ c date, b = alertBlock c date (badges g)) := by
  obtain ⟨hgd, hlen⟩ := groupDetections_eq env dets ks [] hkeys
  have hinv := groupedAs_groupKeys ks [] [] groupedAs_nil hown
  rw [List.nil_append] at hinv
  obtain ⟨h1, h2, h3, h4, h5⟩ := hinv
  refine ⟨groupKeys ks [], hgd, h1, h2, h3, h4, by rw [h5, hlen], ?_, detectionKey_absent env,
    ?_⟩
  · unfold badges
    congr 1
    apply List.map_congr_left
    intro kv hkv
    simp only [badge, h3 kv hkv, gvalText]
  · intro alert b hd hr
    obtain ⟨c, date, dets', g', _, hd', hg', hb⟩ := renderAlert_ok env alert b hr
    rw [hd] at hd'
    simp only [Except.ok.injEq] at hd'
    subst hd'
    rw [hgd] at hg'
    simp only [Except.ok.injEq] at hg'
    subst hg'
    exact ⟨c, date, hb⟩

/-- Witness of C3 (amended) on detections of classes `dog`, `2`, `dog`, `1`. -/
theorem grouping_counts_each_class_witness :
    ∃ g, groupDetections sampleEnv
        [detectionOf "dog", detectionOf "2", detectionOf "dog", detectionOf "1"] [] = .ok g ∧
      (g.map Prod.fst).Nodup ∧ (∀ k, k ∈ g.map Prod.fst ↔ k ∈ ["dog", "2", "dog", "1"]) ∧
      (∀ kv ∈ g, kv.2 = .num (["dog", "2", "dog", "1"].count kv.1)) ∧
      (g.map Prod.fst).Pairwise (keyBefore ["dog", "2", "dog", "1"]) ∧
      countSum g = 4 := by
  obtain ⟨g, h1, h2, h3, h4, h5, h6, _⟩ :=
    grouping_counts_each_class sampleEnv
      [detectionOf "dog", detectionOf "2", detectionOf "dog", detectionOf "1"]
      ["dog", "2", "dog", "1"] rfl (by decide)
  exact ⟨g, h1, h2, h3, h4, h5, h6⟩

end Dashboard
